import Mathlib

/-!
Verification of the film-scanner core (src/film_scanner.py): the image
transform pipeline (apply_adjustments / apply_all_transforms), the film-frame
detector (detect_film_frames), the output filename generator
(generate_filename), and the scan-queue orchestrator (add_to_queue,
process_queue, _process_queue_thread).

Modelling conventions:
* Pixel samples are 8-bit channel values, modelled as Nat (intended range
  0..255).  Images are modelled as a mode tag (PIL image mode), dimensions,
  and a total pixel function row -> col -> channel -> sample.
* Python/NumPy float arithmetic is modelled exactly over Rat; where the code
  truncates a float to uint8 the model takes the floor and where it clips to
  [0, 255] the model clamps.  The test values used in the theorems below keep
  all comparisons far from any float-rounding boundary.
* PIL library primitives invoked by the code are modelled after their
  documented/stable behaviour: ImageEnhance.Brightness blends the image with a
  black image, ImageEnhance.Contrast blends with a constant grey image at the
  rounded mean of the L-converted image, Image.blend extrapolates with
  clamping for factors outside [0, 1] and truncates to integer,
  ImageOps.invert maps v to 255 - v, ImageFilter.MedianFilter(3) is a 3x3
  median with a replicated-edge border and raises ValueError
  "cannot filter palette images" on palette (mode P) images, and
  ImageOps.grayscale uses the ITU-R 601-2 luma transform.
-/

/-- Clip to the byte range then truncate to an integer: models
NumPy clip(x, 0, 255) followed by astype(uint8), and the clamping
extrapolation branch of PIL Image.blend (C ImagingBlend), both of which
clamp to [0, 255] and truncate the positive float result. -/
def truncClamp (t : Rat) : Nat :=
  if t ≤ 0 then 0 else if 255 ≤ t then 255 else (⌊t⌋).toNat

/-- PIL Image.blend(im1, im2, alpha) on one channel sample:
out = im1 + alpha * (im2 - im1), clamped to [0, 255] and truncated. -/
def blendSample (alpha : Rat) (a b : Nat) : Nat :=
  truncClamp ((a : Rat) + alpha * ((b : Rat) - (a : Rat)))

/-- PIL image mode: RGB (3 channels), L (8-bit greyscale), P (palette). -/
inductive Mode where
  | RGB : Mode
  | L : Mode
  | P : Mode
deriving DecidableEq, Repr

/-- A PIL image: mode, size, and a total pixel function
(row, column, channel index) -> 8-bit sample. -/
structure Img where
  mode : Mode
  width : Nat
  height : Nat
  px : Nat → Nat → Nat → Nat

/-- Sum of f over the index range [s, s+n). -/
def sumR (s n : Nat) (f : Nat → Nat) : Nat :=
  ((List.range' s n).map f).sum

/-- Rational-valued sum of f over the index range [s, s+n). -/
def sumRQ (s n : Nat) (f : Nat → Rat) : Rat :=
  ((List.range' s n).map f).sum

/-- ITU-R 601-2 luma used by PIL for RGB -> L conversion,
computed as in Pillow with 16-bit fixed point and rounding:
(19595 R + 38470 G + 7471 B + 0x8000) >> 16. -/
def lumaRGB (r g b : Nat) : Nat :=
  (19595 * r + 38470 * g + 7471 * b + 32768) / 65536

/-- Greyscale view of an image (PIL convert to mode L, as used by
ImageOps.grayscale and ImageStat on the L conversion).  For mode P the
palette is modelled as the identity (grey) palette, so the stored index is
the luma; arbitrary palettes are outside the model and no theorem below
evaluates a P-mode image here. -/
def toL (img : Img) (r c : Nat) : Nat :=
  match img.mode with
  | Mode.RGB => lumaRGB (img.px r c 0) (img.px r c 1) (img.px r c 2)
  | _ => img.px r c 0

/-- ImageOps.mirror: reverse each row (flip horizontal). -/
def ImageOps_mirror (img : Img) : Img :=
  { img with px := fun r c k => img.px r (img.width - 1 - c) k }

/-- ImageOps.flip: reverse the rows (flip vertical). -/
def ImageOps_flip (img : Img) : Img :=
  { img with px := fun r c k => img.px (img.height - 1 - r) c k }

/-- ImageOps.invert: replace each sample v with 255 - v. -/
def ImageOps_invert (img : Img) : Img :=
  { img with px := fun r c k => 255 - img.px r c k }

/-- Total of all luma samples of an image. -/
def pixelTotal (img : Img) : Nat :=
  sumR 0 img.height (fun r => sumR 0 img.width (fun c => toL img r c))

/-- ImageStat.Stat(image.convert("L")).mean[0]: the mean luma sample. -/
def ImageStat_meanL (img : Img) : Rat :=
  (pixelTotal img : Rat) / ((img.width * img.height : Nat) : Rat)

/-- The grey level used by PIL ImageEnhance.Contrast:
mean = int(ImageStat.Stat(image.convert("L")).mean[0] + 0.5). -/
def contrastMean (img : Img) : Nat :=
  (⌊ImageStat_meanL img + 1/2⌋).toNat

/-- PIL ImageEnhance.Brightness(img).enhance(factor): blend of a black
image with the image, so each sample v becomes clamp(factor * v). -/
def ImageEnhance_Brightness (factor : Rat) (img : Img) : Img :=
  { img with px := fun r c k => blendSample factor 0 (img.px r c k) }

/-- PIL ImageEnhance.Contrast(img).enhance(factor): blend of a constant
grey image at the rounded mean luma M with the image, so each sample v
becomes clamp(M + factor * (v - M)).  Note the grey point is the mean of
THIS image, not the fixed value 128. -/
def ImageEnhance_Contrast (factor : Rat) (img : Img) : Img :=
  { img with px := fun r c k => blendSample factor (contrastMean img) (img.px r c k) }

/-- The exposure stage of apply_adjustments:
np.clip(np.array(img) * (1 + exposure), 0, 255).astype(np.uint8) wrapped
back with Image.fromarray.  Image.fromarray maps a 2-D uint8 array to mode
L, so a non-RGB image comes back in mode L. -/
def exposure_stage (exposure : Rat) (img : Img) : Img :=
  { mode := if img.mode = Mode.RGB then Mode.RGB else Mode.L
    width := img.width
    height := img.height
    px := fun r c k => truncClamp ((img.px r c k : Rat) * (1 + exposure)) }

/-- Clamp a possibly negative index into [0, n-1] (replicated-edge border
for the median filter). -/
def clampIdx (i : Int) (n : Nat) : Nat :=
  (max 0 (min i ((n : Int) - 1))).toNat

/-- The nine samples of the 3x3 neighbourhood of (r, c) in channel k,
with replicated edges. -/
def neighborhood3 (img : Img) (r c k : Nat) : List Nat :=
  ([-1, 0, 1] : List Int).flatMap (fun dr =>
    ([-1, 0, 1] : List Int).map (fun dc =>
      img.px (clampIdx ((r : Int) + dr) img.height)
             (clampIdx ((c : Int) + dc) img.width) k))

/-- Median of a 3x3 neighbourhood: the rank-4 element of the nine sorted
samples (PIL MedianFilter(3) is RankFilter(3, 9 // 2)). -/
def median9 (l : List Nat) : Nat :=
  (l.insertionSort (· ≤ ·)).getD 4 0

/-- The despeckle stage img.filter(ImageFilter.MedianFilter(size=3)):
a 3x3 median per channel.  PIL RankFilter raises ValueError
"cannot filter palette images" on a palette (mode P) image; this is the
one pipeline stage that can fail in the model. -/
def img_filter_MedianFilter (img : Img) : Except String Img :=
  if img.mode = Mode.P then
    Except.error "cannot filter palette images"
  else
    Except.ok { img with px := fun r c k => median9 (neighborhood3 img r c k) }

/-- The adjustment parameters read by apply_adjustments and
apply_all_transforms (the tk variables self.brightness, self.contrast,
self.exposure, self.invert_negative, self.remove_dust, self.rotation_angle,
self.flip_horizontal, self.flip_vertical). -/
structure AdjustSettings where
  brightness : Rat
  contrast : Rat
  exposure : Rat
  invert_negative : Bool
  remove_dust : Bool
  rotation_angle : Int
  flip_horizontal : Bool
  flip_vertical : Bool

/-- The identity parameter set: rotation 0, flips off, brightness 1.0,
contrast 1.0, exposure 0.0, invert off, despeckle off. -/
def identitySettings : AdjustSettings :=
  { brightness := 1, contrast := 1, exposure := 0,
    invert_negative := false, remove_dust := false,
    rotation_angle := 0, flip_horizontal := false, flip_vertical := false }

/-- The body of the try block of apply_adjustments (source lines 650-682):
brightness, contrast, exposure, invert (only for modes RGB and L), then
despeckle, each stage guarded by its identity value.  The despeckle stage
is the only one that can raise. -/
def applyAdjustmentsE (p : AdjustSettings) (image : Img) : Except String Img :=
  let img := image
  let img := if p.brightness ≠ 1 then ImageEnhance_Brightness p.brightness img else img
  let img := if p.contrast ≠ 1 then ImageEnhance_Contrast p.contrast img else img
  let img := if p.exposure ≠ 0 then exposure_stage p.exposure img else img
  let img := if p.invert_negative then
               (if img.mode = Mode.RGB ∨ img.mode = Mode.L then ImageOps_invert img else img)
             else img
  if p.remove_dust then img_filter_MedianFilter img else Except.ok img

/-- Source apply_adjustments (lines 648-688): the whole adjustment chain is
wrapped in one try/except; when any stage raises, the except branch logs and
returns the ORIGINAL input image ("Using original image."). -/
def apply_adjustments (p : AdjustSettings) (image : Img) : Img :=
  match applyAdjustmentsE p image with
  | Except.ok img => img
  | Except.error _ => image

/-- Source apply_all_transforms (lines 1236-1254): rotation (guarded by
angle 0), mirror, flip, then apply_adjustments.  PIL Image.rotate with
expand=True is an external resampling routine; it is taken as a parameter,
applied exactly as the source does (to the negated stored angle) and only
when the angle is non-zero. -/
def apply_all_transforms (rotate : Int → Img → Img) (p : AdjustSettings)
    (image : Img) : Img :=
  let img := image
  let img := if p.rotation_angle ≠ 0 then rotate (-p.rotation_angle) img else img
  let img := if p.flip_horizontal then ImageOps_mirror img else img
  let img := if p.flip_vertical then ImageOps_flip img else img
  apply_adjustments p img

/-- Output file formats offered by the GUI (self.file_format). -/
inductive FileFormat where
  | TIFF : FileFormat
  | PNG : FileFormat
  | JPEG : FileFormat
deriving DecidableEq, Repr

/-- The ext_map dictionary of generate_filename. -/
def ext_map (f : FileFormat) : List Char :=
  match f with
  | FileFormat.TIFF => "tif".toList
  | FileFormat.PNG => "png".toList
  | FileFormat.JPEG => "jpg".toList

/-- Decimal representation of a natural number as characters (most
significant digit first), as Python str/format produce it. -/
def decRepr (n : Nat) : List Char :=
  if n = 0 then ['0'] else ((Nat.digits 10 n).map Nat.digitChar).reverse

/-- Python format spec 04d: the decimal representation left-padded with
zeros to a minimum width of four characters. -/
def pad4 (n : Nat) : List Char :=
  List.replicate (4 - (decRepr n).length) '0' ++ decRepr n

/-- Source generate_filename (lines 1256-1268).  Takes the current file
format, the auto_increment flag, the timestamp string of the moment of the
call, and the current scan_counter; returns the filename together with the
new scan_counter (incremented exactly when auto_increment is on). -/
def generate_filename (fmt : FileFormat) (auto_increment : Bool)
    (timestamp : List Char) (scan_counter : Nat) : List Char × Nat :=
  let ext := ext_map fmt
  if auto_increment then
    ("film_scan_".toList ++ pad4 scan_counter ++ '.' :: ext, scan_counter + 1)
  else
    ("film_scan_".toList ++ timestamp ++ '.' :: ext, scan_counter)

/-- Colour modes offered by the GUI (self.color_mode). -/
inductive ColorMode where
  | Color : ColorMode
  | Grayscale : ColorMode
  | BlackWhite : ColorMode
deriving DecidableEq, Repr

/-- The settings snapshot dictionary built by add_to_queue (lines
1433-1447): one queue item. -/
structure QueueItem where
  resolution : Int
  color_mode : ColorMode
  file_format : FileFormat
  brightness : Rat
  contrast : Rat
  exposure : Rat
  invert_negative : Bool
  remove_dust : Bool
  rotation_angle : Int
  flip_horizontal : Bool
  flip_vertical : Bool
  auto_detect : Bool
  timestamp : List Char
deriving DecidableEq

/-- Result surfaced by add_to_queue. -/
inductive AddResult where
  | invalidResolution : AddResult
  | cancelled : AddResult
  | mkdirFailed : AddResult
  | added : AddResult
deriving DecidableEq, Repr

/-- Source add_to_queue (lines 1419-1460).  The candidate item is the
snapshot of the current settings; dir_exists models
os.path.exists(output_dir), create_consent the askyesno answer, and
mkdir_ok whether os.makedirs succeeds (an exception there is caught by the
surrounding try and leaves the queue untouched).  Resolution is validated
first: outside 75..6400 DPI the call returns before any queue mutation. -/
def add_to_queue (candidate : QueueItem) (dir_exists create_consent mkdir_ok : Bool)
    (scan_queue : List QueueItem) : List QueueItem × AddResult :=
  if candidate.resolution < 75 ∨ 6400 < candidate.resolution then
    (scan_queue, AddResult.invalidResolution)
  else if ¬dir_exists ∧ ¬create_consent then
    (scan_queue, AddResult.cancelled)
  else if ¬dir_exists ∧ ¬mkdir_ok then
    (scan_queue, AddResult.mkdirFailed)
  else
    (scan_queue ++ [candidate], AddResult.added)

/-- The mutable application state touched by the queue-control methods:
the queue, the two worker flags, and the number of live worker threads
spawned by process_queue (each threading.Thread(...).start() adds one). -/
structure AppState where
  scan_queue : List QueueItem
  queue_processing : Bool
  queue_paused : Bool
  workers : Nat
deriving DecidableEq

/-- Result surfaced by process_queue. -/
inductive StartResult where
  | emptyQueue : StartResult
  | demoMode : StartResult
  | started : StartResult
deriving DecidableEq, Repr

/-- Source process_queue (lines 1482-1500): rejects only an empty queue or
an unavailable scanner; otherwise it unconditionally sets
queue_processing, clears queue_paused and spawns a new
_process_queue_thread worker.  There is no check of queue_processing:
nothing in this method prevents a second concurrent worker. -/
def process_queue (scanner_available : Bool) (s : AppState) : AppState × StartResult :=
  if s.scan_queue.isEmpty then
    (s, StartResult.emptyQueue)
  else if ¬scanner_available then
    (s, StartResult.demoMode)
  else
    ({ s with queue_processing := true, queue_paused := false,
              workers := s.workers + 1 }, StartResult.started)

/-- Result of one worker run: the final value of the local variable
completed passed to _queue_complete, the remaining queue, the final
queue_processing flag, and the number of successful scans (the growth of
self.scanned_images along the single-save path). -/
structure QueueRunResult where
  completed : Nat
  scan_queue : List QueueItem
  queue_processing : Bool
  scanned_images : Nat
deriving DecidableEq

/-- The while loop of _process_queue_thread.  outcome tells whether
_do_scan_from_queue succeeds on an item (device acquisition and saving).
Each iteration reads (does not pop) the head item and increments completed
BEFORE attempting the scan; on success the head is popped and the loop
continues, on an exception the loop breaks leaving the failed item at the
head of the queue. -/
def queueLoopGo (outcome : QueueItem → Bool) :
    List QueueItem → Nat → Nat → Nat × List QueueItem × Nat
  | [], completed, scanned => (completed, [], scanned)
  | item :: rest, completed, scanned =>
    let completed := completed + 1
    if outcome item then
      queueLoopGo outcome rest completed (scanned + 1)
    else
      (completed, item :: rest, scanned)

/-- Source _process_queue_thread (lines 1513-1562), modelled as the
single-threaded execution with queue_processing true and queue_paused
false throughout (no concurrent pause/stop, as in the C2 scenario).  After
the loop the code always clears queue_processing and reports the local
completed counter to _queue_complete. -/
def process_queue_thread (outcome : QueueItem → Bool)
    (scan_queue : List QueueItem) : QueueRunResult :=
  let r := queueLoopGo outcome scan_queue 0 0
  { completed := r.1, scan_queue := r.2.1, queue_processing := false,
    scanned_images := r.2.2 }

/-- A detected frame region (left, top, right, bottom) in pixel
coordinates of the parent buffer, as appended by detect_film_frames. -/
abbrev Frame : Type := Nat × Nat × Nat × Nat

/-- The brightness test of detect_film_frames:
v > threshold with threshold = mean + std * 0.5.  Since std >= 0 this is
equivalent, without a square root, to v > mean together with
4 * (v - mean)^2 > variance (squaring both sides of
2 * (v - mean) > std). -/
def npThresholdLt (mean variance : Rat) (v : Nat) : Bool :=
  decide (mean < (v : Rat)) && decide (variance < 4 * ((v : Rat) - mean) ^ 2)

/-- Mean of a w x h grey sample array (np.mean of the 2-D array). -/
def npMeanGray (g : Nat → Nat → Nat) (w h : Nat) : Rat :=
  (sumR 0 h (fun r => sumR 0 w (fun c => g r c)) : Rat) / ((w * h : Nat) : Rat)

/-- Variance (square of np.std) of a w x h grey sample array: the mean of
the squared deviations from the mean. -/
def npVarGray (g : Nat → Nat → Nat) (w h : Nat) : Rat :=
  sumRQ 0 h (fun r => sumRQ 0 w (fun c => ((g r c : Rat) - npMeanGray g w h) ^ 2))
    / ((w * h : Nat) : Rat)

/-- The binary mask of the detector: binary = img_array > threshold. -/
def maskOf (g : Nat → Nat → Nat) (w h : Nat) : Nat → Nat → Bool :=
  fun r c => npThresholdLt (npMeanGray g w h) (npVarGray g w h) (g r c)

/-- Per-column count of mask pixels: np.sum(binary, axis=0) at column j. -/
def colSumAt (mask : Nat → Nat → Bool) (h j : Nat) : Nat :=
  (List.range h).countP (fun r => mask r j)

/-- The full col_sums array of the detector. -/
def colSumsOf (g : Nat → Nat → Nat) (w h : Nat) : List Nat :=
  (List.range w).map (colSumAt (maskOf g w h) h)

/-- Per-row count of mask pixels restricted to columns [a, b):
np.sum(binary[:, a:b], axis=1) at row r. -/
def rowSumIn (mask : Nat → Nat → Bool) (a b r : Nat) : Nat :=
  (List.range' a (b - a)).countP (fun j => mask r j)

/-- np.where(row_sums > row_threshold)[0] for the column range [a, b):
the ascending list of rows whose restricted count exceeds
frame_width * 0.1. -/
def rowsWithContent (mask : Nat → Nat → Bool) (h a b : Nat) : List Nat :=
  (List.range h).filter
    (fun r => decide (((b - a : Nat) : Rat) / 10 < (rowSumIn mask a b r : Rat)))

/-- The body of the run-closing branch of the detector loop (source lines
1300-1320): with the run [start, i) closed, emit a region when the run is
wider than 100 and more than 100 rows have content; the region is the run
padded by 10, clamped to the buffer (left and top by truncated Nat
subtraction, modelling max(0, x - 10)). -/
def emitRegion (w h : Nat) (mask : Nat → Nat → Bool) (start i : Nat) : Option Frame :=
  let frame_width := i - start
  if 100 < frame_width then
    let rwc := rowsWithContent mask h start i
    if 100 < rwc.length then
      some (start - 10, rwc.headD 0 - 10, min w (i + 10), min h (rwc.getLastD 0 + 10))
    else none
  else none

/-- The detector's column scan (source lines 1292-1323): enumerate the
column sums left to right with the in_frame/frame_start state machine; a
run opens at the first column whose count exceeds the threshold and closes
at the next column at or below it, emitting a region; a run still open
when the columns are exhausted is NOT emitted (the loop simply ends). -/
def scanLoop (t : Rat) (emit : Nat → Nat → Option Frame) :
    Nat → Bool → Nat → List Nat → List Frame → List Frame
  | _, _, _, [], acc => acc
  | i, inF, start, c :: rest, acc =>
    if t < (c : Rat) ∧ inF = false then
      scanLoop t emit (i + 1) true i rest acc
    else if (c : Rat) ≤ t ∧ inF = true then
      scanLoop t emit (i + 1) false start rest (acc ++ (emit start i).toList)
    else
      scanLoop t emit (i + 1) inF start rest acc

/-- The detector body after greyscale conversion, over the grey sample
array g of a w x h buffer: threshold from mean and std, binary mask,
column counts against col_threshold = h * 0.1, and the run scan. -/
def detectCore (w h : Nat) (g : Nat → Nat → Nat) : List Frame :=
  scanLoop ((h : Rat) / 10) (emitRegion w h (maskOf g w h)) 0 false 0
    (colSumsOf g w h) []

/-- The greyscale conversion call ImageOps.grayscale(image) seen as a
fallible collaborator (the try of detect_film_frames catches whatever the
PIL/NumPy calls raise); the real conversion is total. -/
def ImageOps_grayscale (img : Img) : Except String (Nat → Nat → Nat) :=
  Except.ok (toL img)

/-- The try body of detect_film_frames, parameterised over the greyscale
collaborator. -/
def detect_body (gs : Img → Except String (Nat → Nat → Nat)) (img : Img) :
    Except String (List Frame) :=
  (gs img).map (fun g => detectCore img.width img.height g)

/-- Source detect_film_frames with its try/except (lines 1270-1328): any
exception inside the body is caught and the empty list returned. -/
def detect_film_frames_with (gs : Img → Except String (Nat → Nat → Nat))
    (img : Img) : List Frame :=
  match detect_body gs img with
  | Except.ok frames => frames
  | Except.error _ => []

/-- Source detect_film_frames with the real greyscale conversion. -/
def detect_film_frames (img : Img) : List Frame :=
  detect_film_frames_with ImageOps_grayscale img

/-- A column of the detector's mask is active when its bright count
exceeds col_threshold = height * 0.1 (strict, as in the source). -/
def colIsActive (g : Nat → Nat → Nat) (w h j : Nat) : Prop :=
  (h : Rat) / 10 < (colSumAt (maskOf g w h) h j : Rat)

instance (g : Nat → Nat → Nat) (w h j : Nat) : Decidable (colIsActive g w h j) := by
  unfold colIsActive; infer_instance

/-- A 1x1 palette-mode test image with the single sample 100. -/
def imgC1 : Img := { mode := Mode.P, width := 1, height := 1, px := fun _ _ _ => 100 }

/-- Parameters with a non-identity brightness (2.0) and despeckle enabled,
all other stages at identity. -/
def adjC1 : AdjustSettings :=
  { identitySettings with brightness := 2, remove_dust := true }

/-- Three queue items distinguished by resolution. -/
def jobA : QueueItem :=
  { resolution := 100, color_mode := ColorMode.Color, file_format := FileFormat.PNG,
    brightness := 1, contrast := 1, exposure := 0, invert_negative := false,
    remove_dust := false, rotation_angle := 0, flip_horizontal := false,
    flip_vertical := false, auto_detect := false, timestamp := [] }

/-- Second queue item (the one whose device acquisition fails). -/
def jobB : QueueItem := { jobA with resolution := 150 }

/-- Third queue item. -/
def jobC : QueueItem := { jobA with resolution := 200 }

/-- Outcome function for the C2 scenario: the scan of job 2 (resolution
150) raises (device Acquire fails); the others succeed. -/
def outcomeC2 (item : QueueItem) : Bool :=
  decide (item.resolution ≠ 150)

/-- Initial state for the C3 scenario: one job enqueued, idle, no worker. -/
def sC3 : AppState :=
  { scan_queue := [jobA], queue_processing := false, queue_paused := false,
    workers := 0 }

/-- A 1x1 greyscale test image with the single sample 100 (mean luma 100). -/
def imgC6 : Img := { mode := Mode.L, width := 1, height := 1, px := fun _ _ _ => 100 }

/-- Parameters with contrast 2.0 and everything else at identity. -/
def adjC6 : AdjustSettings := { identitySettings with contrast := 2 }

/-- The contrast formula asserted by the claim: scale the deviation from
the FIXED mid-grey 128 and clamp. -/
def specContrast128 (c : Rat) (v : Nat) : Nat :=
  truncClamp (128 + c * ((v : Rat) - 128))

/-- A greyscale collaborator that always raises. -/
def gsFail : Img → Except String (Nat → Nat → Nat) :=
  fun _ => Except.error "grayscale conversion failed"

/-- Parse a character list as a decimal number (used only in proofs, as a
left inverse of the zero-padded rendering). -/
def unpadNum (l : List Char) : Nat :=
  l.foldl (fun a ch => 10 * a + (ch.toNat - 48)) 0

/-- Events at the output writer: a filename-generation call, a successful
save, a failed save.  Nothing in the source ever modifies scan_counter
except the increment inside generate_filename (line 1264); in particular a
failed save leaves the counter alone. -/
inductive OutputOp where
  | generate : OutputOp
  | save_ok : OutputOp
  | save_fail : OutputOp

/-- Whether an output event is a filename generation. -/
def isGenerate : OutputOp → Bool
  | OutputOp.generate => true
  | _ => false

/-- Effect of one output event on scan_counter (auto-increment enabled). -/
def outputStep (fmt : FileFormat) (ts : List Char) (c : Nat) (op : OutputOp) : Nat :=
  match op with
  | OutputOp.generate => (generate_filename fmt true ts c).2
  | _ => c

/-- scan_counter after a sequence of output events. -/
def counterAfter (fmt : FileFormat) (ts : List Char) (c : Nat) (ops : List OutputOp) : Nat :=
  ops.foldl (outputStep fmt ts) c

/-- The counter values passed to the successive generate_filename calls of a
trace (auto-increment enabled). -/
def genCounters (fmt : FileFormat) (ts : List Char) : Nat → List OutputOp → List Nat
  | _, [] => []
  | c, OutputOp.generate :: rest =>
      c :: genCounters fmt ts (generate_filename fmt true ts c).2 rest
  | c, _ :: rest => genCounters fmt ts c rest

/-- The filenames returned by the successive generate_filename calls of a
trace (auto-increment enabled). -/
def genNames (fmt : FileFormat) (ts : List Char) : Nat → List OutputOp → List (List Char)
  | _, [] => []
  | c, OutputOp.generate :: rest =>
      (generate_filename fmt true ts c).1 :: genNames fmt ts (generate_filename fmt true ts c).2 rest
  | c, _ :: rest => genNames fmt ts c rest

/-- A 150 x 300 greyscale buffer whose bright region (value 255) covers
rows 150..299 and columns 10..149 — i.e. it extends to the right-most
column — on a dark (value 0) background. -/
def imgC4 : Img :=
  { mode := Mode.L, width := 150, height := 300,
    px := fun r c _ => if 150 ≤ r ∧ 10 ≤ c then 255 else 0 }

/-- The synthetic 2000 x 1000 test buffer of the claim: two 400 x 600
bright (255) rectangles at x-offsets 100 and 1200 (rows 200..799),
separated by a dark gap, on a dark (0) background. -/
def img7 : Img :=
  { mode := Mode.L, width := 2000, height := 1000,
    px := fun r c _ =>
      if (200 ≤ r ∧ r < 800) ∧ ((100 ≤ c ∧ c < 500) ∨ (1200 ≤ c ∧ c < 1600))
      then 255 else 0 }

/-- Column-sum function of the img7 detector run. -/
def f7 : Nat → Nat := colSumAt (maskOf (toL img7) 2000 1000) 1000

/-- Column threshold of the img7 detector run. -/
def T7 : Rat := ((1000 : Nat) : Rat) / 10

/-- Emit function of the img7 detector run. -/
def E7 : Nat → Nat → Option Frame := emitRegion 2000 1000 (maskOf (toL img7) 2000 1000)

/-- Column sums of img7 still to scan after the left dark margin. -/
def cs7_1 : List Nat :=
  (List.range' 100 400).map f7
    ++ ((List.range' 500 700).map f7
      ++ ((List.range' 1200 400).map f7 ++ (List.range' 1600 400).map f7))

/-- Column sums of img7 still to scan after the first bright run. -/
def cs7_2 : List Nat :=
  (List.range' 500 700).map f7
    ++ ((List.range' 1200 400).map f7 ++ (List.range' 1600 400).map f7)

/-- Column sums of img7 still to scan after the middle dark gap. -/
def cs7_3 : List Nat :=
  (List.range' 1200 400).map f7 ++ (List.range' 1600 400).map f7

/-- Column sums of img7 still to scan after the second bright run. -/
def cs7_4 : List Nat := (List.range' 1600 400).map f7

/-- A minimal buffer whose single column is active: 1 x 2, with samples 2
(row 0) and 0 (row 1). -/
def imgAA : Img :=
  { mode := Mode.L, width := 1, height := 2, px := fun r _ _ => if r = 0 then 2 else 0 }

/-- Claim C1, counterexample.  On a palette-mode image with brightness 2.0
and despeckle on, exactly one stage (despeckle) fails; the claim says every
other stage's effect is still applied, so the output sample should be the
brightened 200.  The code's single try/except instead returns the original
image: the output sample is 100 and the successful brightness stage's
effect is discarded along with the failing stage. -/
theorem C1_counterexample :
    applyAdjustmentsE adjC1 imgC1 = Except.error "cannot filter palette images" ∧
    (apply_adjustments adjC1 imgC1).px 0 0 0 = 100 ∧
    (ImageEnhance_Brightness 2 imgC1).px 0 0 0 = 200 := by
  refine ⟨rfl, rfl, ?_⟩
  show blendSample 2 0 100 = 200
  unfold blendSample truncClamp
  norm_num
  decide

/-- Claim C1, amended.  When the despeckle stage fails (palette-mode
image, exposure at identity so the mode survives to the filter), the
pipeline does not abort, but apply_adjustments returns its input image
unchanged: the effects of ALL adjustment stages (including any that
succeeded, such as a non-identity brightness) are discarded, not only the
failing stage. -/
theorem C1_amended (p : AdjustSettings) (img : Img)
    (hm : img.mode = Mode.P) (he : p.exposure = 0) (hd : p.remove_dust = true) :
    apply_adjustments p img = img := by
  have key : applyAdjustmentsE p img = Except.error "cannot filter palette images" := by
    unfold applyAdjustmentsE
    simp only [he, ne_eq, not_true_eq_false, if_false, hd, if_true, ite_self]
    split_ifs with h1 h2 h3 h4 h5 h6 h7 <;>
      simp_all [img_filter_MedianFilter, ImageEnhance_Brightness,
        ImageEnhance_Contrast, ImageOps_invert, hm]
  unfold apply_adjustments
  rw [key]

/-- Claim C1 amended, witness: the concrete palette-image instance. -/
theorem C1_amended_witness : apply_adjustments adjC1 imgC1 = imgC1 :=
  C1_amended adjC1 imgC1 rfl rfl rfl

/-- Claim C2, evaluation at the failing input.  Enqueue 3 jobs and force
job 2's acquisition to fail: the worker halts, the queue still holds jobs
2 and 3 in order (job 1 popped, job 2 retained at the head) and the queue
is stopped — exactly as the claim says — but the reported completed-count
is 2, not 1: the source increments the local completed counter BEFORE
attempting each scan (line 1530), so the failed attempt is counted, while
the code's own session statistic (scanned_images) grows only to 1.  The
dialog shown by _queue_complete therefore reports "Completed: 2 scans" and
"Total session scans: 1" for the same run. -/
theorem C2_queue_failure_eval :
    process_queue_thread outcomeC2 [jobA, jobB, jobC] =
      { completed := 2, scan_queue := [jobB, jobC], queue_processing := false,
        scanned_images := 1 } := by
  decide

/-- Claim C3, evaluation at the failing input.  process_queue checks only
for an empty queue and scanner availability, never queue_processing: a
second call while the first worker is running is accepted again and spawns
a second _process_queue_thread — two live workers.  (Only the GUI's
disabling of the button papers over this; the method itself has no
guard.) -/
theorem C3_double_start_eval :
    (process_queue true sC3).2 = StartResult.started ∧
    (process_queue true sC3).1.queue_processing = true ∧
    (process_queue true (process_queue true sC3).1).2 = StartResult.started ∧
    (process_queue true (process_queue true sC3).1).1.workers = 2 := by
  decide

/-- Claim C5: with every parameter at its identity value, the whole
transform pipeline (rotation, flips, and all the adjustment stages of
apply_adjustments) is skipped, and both apply_all_transforms and
apply_adjustments return the input buffer unchanged, for any rotation
routine whatsoever. -/
theorem C5_identity_pipeline (rotate : Int → Img → Img) (img : Img) :
    apply_all_transforms rotate identitySettings img = img ∧
    apply_adjustments identitySettings img = img :=
  ⟨rfl, rfl⟩

/-- Claim C6, counterexample.  On a uniform greyscale buffer of value 100
with contrast 2.0, the claim's formula clamp(128 + 2*(100-128)) gives 72,
but PIL ImageEnhance.Contrast blends against the image's own rounded mean
luma (here 100), so the code leaves the sample at 100: the contrast stage
does not use the fixed mid-grey 128. -/
theorem C6_counterexample :
    (apply_adjustments adjC6 imgC6).px 0 0 0 = 100 ∧
    specContrast128 2 (imgC6.px 0 0 0) = 72 ∧
    (apply_adjustments adjC6 imgC6).px 0 0 0 ≠ specContrast128 2 (imgC6.px 0 0 0) := by
  have hM : contrastMean imgC6 = 100 := by
    unfold contrastMean
    rw [show ImageStat_meanL imgC6 = 100 by
      unfold ImageStat_meanL
      rw [show pixelTotal imgC6 = 100 from rfl]
      norm_num [imgC6]]
    rw [show ⌊(100 : Rat) + 1/2⌋ = 100 by rw [Int.floor_eq_iff] <;> norm_num]
    decide
  have h1 : (apply_adjustments adjC6 imgC6).px 0 0 0 = 100 := by
    show blendSample 2 (contrastMean imgC6) 100 = 100
    rw [hM]
    unfold blendSample truncClamp
    norm_num
    decide
  have h2 : specContrast128 2 (imgC6.px 0 0 0) = 72 := by
    show truncClamp (128 + 2 * ((100 : Rat) - 128)) = 72
    unfold truncClamp
    norm_num [Int.floor_ofNat]
    decide
  exact ⟨h1, h2, by rw [h1, h2]; decide⟩

/-- Claim C6, amended.  For every buffer (within the faithful part of the
model, i.e. not palette mode) and non-identity contrast factor c, the
contrast stage maps each channel sample v to the clamp to [0, 255] (with
truncation) of M + c*(v - M), where M is the rounded mean of the
greyscale-converted image — 128 plays no role unless the image's mean luma
happens to be 128. -/
theorem C6_amended (img : Img) (cf : Rat) (r c k : Nat)
    (hc : cf ≠ 1) (hm : img.mode ≠ Mode.P) :
    (apply_adjustments { identitySettings with contrast := cf } img).px r c k
      = truncClamp ((contrastMean img : Rat)
          + cf * ((img.px r c k : Rat) - (contrastMean img : Rat))) := by
  unfold apply_adjustments applyAdjustmentsE
  simp only [identitySettings, ne_eq, not_true_eq_false, if_false, ite_self,
    not_false_eq_true, if_true, hc, if_neg, Bool.false_eq_true]
  simp [ImageEnhance_Contrast, blendSample, hc]

/-- Claim C6 amended, witness at the concrete greyscale buffer. -/
theorem C6_amended_witness :
    (apply_adjustments { identitySettings with contrast := 2 } imgC6).px 0 0 0
      = truncClamp ((contrastMean imgC6 : Rat)
          + 2 * ((imgC6.px 0 0 0 : Rat) - (contrastMean imgC6 : Rat))) :=
  C6_amended imgC6 2 0 0 0 (by norm_num) (by decide)

/-- Claim C9: a candidate whose resolution lies outside 75..6400 DPI is
rejected by add_to_queue before any queue mutation: the queue is returned
unchanged with a validation error, regardless of the directory flags. -/
theorem C9_resolution_validated (cand : QueueItem) (dir_exists create_consent mkdir_ok : Bool)
    (q : List QueueItem) (h : cand.resolution < 75 ∨ 6400 < cand.resolution) :
    add_to_queue cand dir_exists create_consent mkdir_ok q = (q, AddResult.invalidResolution) := by
  unfold add_to_queue
  rw [if_pos h]

/-- Claim C9, witness: resolution 74 is rejected and leaves the queue as
it was. -/
theorem C9_resolution_validated_witness :
    add_to_queue { jobA with resolution := 74 } true true true [jobB] =
      ([jobB], AddResult.invalidResolution) :=
  C9_resolution_validated { jobA with resolution := 74 } true true true [jobB]
    (Or.inl (by decide))

/-- Claim C10: detect_film_frames never propagates an error — whenever the
try body signals one (here: the greyscale collaborator, standing for
whatever the PIL/NumPy calls may raise), the except branch returns the
empty list, so the caller falls back to saving the whole buffer. -/
theorem C10_detect_never_throws (gs : Img → Except String (Nat → Nat → Nat))
    (img : Img) (e : String) (h : detect_body gs img = Except.error e) :
    detect_film_frames_with gs img = [] := by
  unfold detect_film_frames_with
  rw [h]

/-- Claim C10, witness: with a raising collaborator the detector returns
the empty list. -/
theorem C10_detect_never_throws_witness :
    detect_film_frames_with gsFail imgC6 = [] :=
  C10_detect_never_throws gsFail imgC6 "grayscale conversion failed" rfl

theorem digitChar_toNat_sub (d : Nat) (hd : d < 10) : (Nat.digitChar d).toNat - 48 = d := by
  interval_cases d <;> decide

theorem unpadNum_replicate_zero (k : Nat) (l : List Char) :
    unpadNum (List.replicate k '0' ++ l) = unpadNum l := by
  induction k with
  | zero => simp
  | succ n ih =>
    have step : unpadNum (List.replicate (n + 1) '0' ++ l)
        = unpadNum (List.replicate n '0' ++ l) := by
      unfold unpadNum
      rw [List.replicate_succ, List.cons_append, List.foldl_cons,
        show (10 * 0 + (('0').toNat - 48)) = 0 from rfl]
    rw [step, ih]

theorem foldl_digits_aux (ds : List Nat) (h : ∀ d ∈ ds, d < 10) (A : Nat) :
    List.foldl (fun a ch => 10 * a + (ch.toNat - 48)) A ((ds.map Nat.digitChar).reverse)
      = A * 10 ^ ds.length + Nat.ofDigits 10 ds := by
  induction ds generalizing A with
  | nil => simp [Nat.ofDigits]
  | cons d tl ih =>
    have hd : d < 10 := h d (by simp)
    have htl : ∀ x ∈ tl, x < 10 := fun x hx => h x (by simp [hx])
    simp only [List.map_cons, List.reverse_cons, List.foldl_append, List.foldl_cons,
      List.foldl_nil]
    rw [ih htl A, digitChar_toNat_sub d hd, Nat.ofDigits_cons]
    push_cast
    rw [List.length_cons, pow_succ]
    ring

theorem unpadNum_decRepr (n : Nat) : unpadNum (decRepr n) = n := by
  unfold decRepr
  by_cases h : n = 0
  · subst h; decide
  · rw [if_neg h]
    have := foldl_digits_aux (Nat.digits 10 n)
      (fun d hd => Nat.digits_lt_base (by norm_num) hd) 0
    unfold unpadNum
    rw [this]
    simp [Nat.ofDigits_digits]

theorem pad4_inj {m n : Nat} (h : pad4 m = pad4 n) : m = n := by
  have := congrArg unpadNum h
  rw [pad4, pad4, unpadNum_replicate_zero, unpadNum_replicate_zero,
    unpadNum_decRepr, unpadNum_decRepr] at this
  exact this

theorem generate_filename_auto_inj (fmt : FileFormat) (ts : List Char) {m n : Nat}
    (h : (generate_filename fmt true ts m).1 = (generate_filename fmt true ts n).1) :
    m = n := by
  simp only [generate_filename, if_true] at h
  rw [List.append_assoc, List.append_assoc] at h
  have h2 : pad4 m ++ '.' :: ext_map fmt = pad4 n ++ '.' :: ext_map fmt :=
    List.append_cancel_left h
  have hlen : (pad4 m).length = (pad4 n).length := by
    have := congrArg List.length h2
    simp only [List.length_append] at this
    omega
  exact pad4_inj (List.append_inj h2 hlen).1

theorem genCounters_eq_range' (fmt : FileFormat) (ts : List Char) (ops : List OutputOp) :
    ∀ c, genCounters fmt ts c ops = List.range' c (ops.countP isGenerate) := by
  induction ops with
  | nil => intro c; simp [genCounters]
  | cons op rest ih =>
    intro c
    cases op with
    | generate =>
      rw [show (OutputOp.generate :: rest).countP isGenerate
            = rest.countP isGenerate + 1 from List.countP_cons_of_pos _ _ rfl]
      rw [List.range'_succ]
      show c :: genCounters fmt ts (c + 1) rest = _
      rw [ih (c + 1)]
    | save_ok =>
      rw [show (OutputOp.save_ok :: rest).countP isGenerate
            = rest.countP isGenerate from List.countP_cons_of_neg _ _ (by decide)]
      exact ih c
    | save_fail =>
      rw [show (OutputOp.save_fail :: rest).countP isGenerate
            = rest.countP isGenerate from List.countP_cons_of_neg _ _ (by decide)]
      exact ih c

theorem genNames_eq_map (fmt : FileFormat) (ts : List Char) (ops : List OutputOp) :
    ∀ c, genNames fmt ts c ops
      = (genCounters fmt ts c ops).map (fun n => (generate_filename fmt true ts n).1) := by
  induction ops with
  | nil => intro c; simp [genNames, genCounters]
  | cons op rest ih =>
    intro c
    cases op with
    | generate =>
      show (generate_filename fmt true ts c).1 :: genNames fmt ts (c + 1) rest = _
      rw [ih (c + 1)]
      rfl
    | save_ok => exact ih c
    | save_fail => exact ih c

theorem pairwise_lt_range'_aux (n : Nat) : ∀ s, (List.range' s n).Pairwise (· < ·) := by
  induction n with
  | zero => intro s; simp
  | succ m ih =>
    intro s
    rw [List.range'_succ]
    exact List.Pairwise.cons
      (fun x hx => by
        have := (List.mem_range'_1).1 hx
        omega)
      (ih (s + 1))

theorem counterAfter_eq (fmt : FileFormat) (ts : List Char) (ops : List OutputOp) :
    ∀ c, counterAfter fmt ts c ops = c + ops.countP isGenerate := by
  induction ops with
  | nil => intro c; simp [counterAfter]
  | cons op rest ih =>
    intro c
    cases op with
    | generate =>
      show counterAfter fmt ts (c + 1) rest = _
      rw [ih (c + 1),
        show (OutputOp.generate :: rest).countP isGenerate
          = rest.countP isGenerate + 1 from List.countP_cons_of_pos _ _ rfl]
      omega
    | save_ok =>
      show counterAfter fmt ts c rest = _
      rw [ih c,
        show (OutputOp.save_ok :: rest).countP isGenerate
          = rest.countP isGenerate from List.countP_cons_of_neg _ _ (by decide)]
    | save_fail =>
      show counterAfter fmt ts c rest = _
      rw [ih c,
        show (OutputOp.save_fail :: rest).countP isGenerate
          = rest.countP isGenerate from List.countP_cons_of_neg _ _ (by decide)]

/-- Claim C8: along any interleaving of filename generations and
(successful or failed) saves with auto-increment enabled, the counter
values consumed by the generation calls are strictly increasing (each call
increments the counter, saves never touch it), the returned filenames are
pairwise distinct and carry those strictly increasing counters, and the
final counter is the start plus exactly the number of generation calls —
never decremented, no value reused, regardless of save failures. -/
theorem C8_counter_monotonicity (fmt : FileFormat) (ts : List Char) (c0 : Nat)
    (ops : List OutputOp) :
    (genCounters fmt ts c0 ops).Pairwise (· < ·) ∧
    (genNames fmt ts c0 ops).Pairwise (· ≠ ·) ∧
    genNames fmt ts c0 ops
      = (List.range' c0 (ops.countP isGenerate)).map
          (fun n => (generate_filename fmt true ts n).1) ∧
    counterAfter fmt ts c0 ops = c0 + ops.countP isGenerate := by
  refine ⟨?_, ?_, ?_, counterAfter_eq fmt ts ops c0⟩
  · rw [genCounters_eq_range']
    exact pairwise_lt_range'_aux _ c0
  · rw [genNames_eq_map, genCounters_eq_range']
    refine List.Pairwise.map _ ?_ (pairwise_lt_range'_aux _ c0)
    intro a b hab heq
    exact absurd (generate_filename_auto_inj fmt ts heq) (Nat.ne_of_lt hab)
  · rw [genNames_eq_map, genCounters_eq_range']

theorem scanLoop_nil (t : Rat) (emit : Nat → Nat → Option Frame)
    (i : Nat) (inF : Bool) (st : Nat) (acc : List Frame) :
    scanLoop t emit i inF st [] acc = acc := rfl

theorem scanLoop_cons (t : Rat) (emit : Nat → Nat → Option Frame)
    (i : Nat) (inF : Bool) (st c : Nat) (rest : List Nat) (acc : List Frame) :
    scanLoop t emit i inF st (c :: rest) acc =
      if t < (c : Rat) ∧ inF = false then scanLoop t emit (i + 1) true i rest acc
      else if (c : Rat) ≤ t ∧ inF = true then
        scanLoop t emit (i + 1) false st rest (acc ++ (emit st i).toList)
      else scanLoop t emit (i + 1) inF st rest acc := rfl

theorem scanLoop_open (t : Rat) (emit : Nat → Nat → Option Frame) {c : Nat}
    (hc : t < (c : Rat)) (i st : Nat) (rest : List Nat) (acc : List Frame) :
    scanLoop t emit i false st (c :: rest) acc = scanLoop t emit (i + 1) true i rest acc := by
  rw [scanLoop_cons, if_pos ⟨hc, rfl⟩]

theorem scanLoop_close (t : Rat) (emit : Nat → Nat → Option Frame) {c : Nat}
    (hc : (c : Rat) ≤ t) (i st : Nat) (rest : List Nat) (acc : List Frame) :
    scanLoop t emit i true st (c :: rest) acc
      = scanLoop t emit (i + 1) false st rest (acc ++ (emit st i).toList) := by
  rw [scanLoop_cons, if_neg (by simp), if_pos ⟨hc, rfl⟩]

theorem scanLoop_stay_out (t : Rat) (emit : Nat → Nat → Option Frame) {c : Nat}
    (hc : (c : Rat) ≤ t) (i st : Nat) (rest : List Nat) (acc : List Frame) :
    scanLoop t emit i false st (c :: rest) acc = scanLoop t emit (i + 1) false st rest acc := by
  rw [scanLoop_cons, if_neg (fun h => absurd h.1 (not_lt.2 hc)), if_neg (by simp)]

theorem scanLoop_stay_in (t : Rat) (emit : Nat → Nat → Option Frame) {c : Nat}
    (hc : t < (c : Rat)) (i st : Nat) (rest : List Nat) (acc : List Frame) :
    scanLoop t emit i true st (c :: rest) acc = scanLoop t emit (i + 1) true st rest acc := by
  rw [scanLoop_cons, if_neg (by simp), if_neg (fun h => absurd hc (not_lt.2 h.1))]

theorem scanLoop_inactive_block (t : Rat) (emit : Nat → Nat → Option Frame)
    (l : List Nat) (h : ∀ x ∈ l, (x : Rat) ≤ t) (rest : List Nat) :
    ∀ (i st : Nat) (acc : List Frame),
    scanLoop t emit i false st (l ++ rest) acc
      = scanLoop t emit (i + l.length) false st rest acc := by
  induction l with
  | nil => intro i st acc; simp
  | cons c l' ih =>
    intro i st acc
    rw [List.cons_append, scanLoop_stay_out t emit (h c (by simp)),
      ih (fun x hx => h x (by simp [hx])) (i + 1) st acc]
    congr 1
    simp only [List.length_cons]
    omega

theorem scanLoop_active_block (t : Rat) (emit : Nat → Nat → Option Frame)
    (l : List Nat) (h : ∀ x ∈ l, t < (x : Rat)) (rest : List Nat) :
    ∀ (i st : Nat) (acc : List Frame),
    scanLoop t emit i true st (l ++ rest) acc
      = scanLoop t emit (i + l.length) true st rest acc := by
  induction l with
  | nil => intro i st acc; simp
  | cons c l' ih =>
    intro i st acc
    rw [List.cons_append, scanLoop_stay_in t emit (h c (by simp)),
      ih (fun x hx => h x (by simp [hx])) (i + 1) st acc]
    congr 1
    simp only [List.length_cons]
    omega

theorem scanLoop_active_tail (t : Rat) (emit : Nat → Nat → Option Frame)
    (l : List Nat) (h : ∀ x ∈ l, t < (x : Rat)) :
    ∀ (i st : Nat) (acc : List Frame), scanLoop t emit i true st l acc = acc := by
  induction l with
  | nil => intro i st acc; rfl
  | cons c l' ih =>
    intro i st acc
    rw [scanLoop_stay_in t emit (h c (by simp)), ih (fun x hx => h x (by simp [hx]))]

theorem scanLoop_inactive_tail (t : Rat) (emit : Nat → Nat → Option Frame)
    (l : List Nat) (h : ∀ x ∈ l, (x : Rat) ≤ t) :
    ∀ (i st : Nat) (acc : List Frame), scanLoop t emit i false st l acc = acc := by
  induction l with
  | nil => intro i st acc; rfl
  | cons c l' ih =>
    intro i st acc
    rw [scanLoop_stay_out t emit (h c (by simp)), ih (fun x hx => h x (by simp [hx]))]

theorem scanLoop_acc_mono (t : Rat) (emit : Nat → Nat → Option Frame) :
    ∀ (l : List Nat) (i : Nat) (inF : Bool) (st : Nat) (acc : List Frame),
    ∃ ext, scanLoop t emit i inF st l acc = acc ++ ext := by
  intro l
  induction l with
  | nil => exact fun i inF st acc => ⟨[], by simp [scanLoop_nil]⟩
  | cons c rest ih =>
    intro i inF st acc
    rw [scanLoop_cons]
    split_ifs with h1 h2
    · exact ih (i + 1) true i acc
    · obtain ⟨ext, hext⟩ := ih (i + 1) false st (acc ++ (emit st i).toList)
      exact ⟨(emit st i).toList ++ ext, by rw [hext, List.append_assoc]⟩
    · exact ih (i + 1) inF st acc

theorem scanLoop_lands_false (t : Rat) (emit : Nat → Nat → Option Frame) :
    ∀ (l : List Nat) (c : Nat) (rest : List Nat) (i : Nat) (inF : Bool) (st : Nat)
      (acc : List Frame), (c : Rat) ≤ t →
    ∃ st2 acc2, scanLoop t emit i inF st (l ++ c :: rest) acc
      = scanLoop t emit (i + l.length + 1) false st2 rest acc2 := by
  intro l
  induction l with
  | nil =>
    intro c rest i inF st acc hc
    cases inF with
    | false =>
      exact ⟨st, acc, by rw [List.nil_append, scanLoop_stay_out t emit hc]; rfl⟩
    | true =>
      exact ⟨st, acc ++ (emit st i).toList,
        by rw [List.nil_append, scanLoop_close t emit hc]; rfl⟩
  | cons d l' ih =>
    intro c rest i inF st acc hc
    rw [List.cons_append, scanLoop_cons]
    split_ifs with h1 h2
    · obtain ⟨st2, acc2, h⟩ := ih c rest (i + 1) true i acc hc
      exact ⟨st2, acc2, by rw [h]; congr 1; simp only [List.length_cons]; omega⟩
    · obtain ⟨st2, acc2, h⟩ := ih c rest (i + 1) false st (acc ++ (emit st i).toList) hc
      exact ⟨st2, acc2, by rw [h]; congr 1; simp only [List.length_cons]; omega⟩
    · obtain ⟨st2, acc2, h⟩ := ih c rest (i + 1) inF st acc hc
      exact ⟨st2, acc2, by rw [h]; congr 1; simp only [List.length_cons]; omega⟩

theorem map_range'_const {α : Type} (f : Nat → α) (v : α) :
    ∀ (n s : Nat), (∀ i, s ≤ i → i < s + n → f i = v) →
    (List.range' s n).map f = List.replicate n v := by
  intro n
  induction n with
  | zero => intro s _; rfl
  | succ m ih =>
    intro s h
    rw [List.range'_succ, List.map_cons, h s (by omega) (by omega),
      ih (s + 1) (fun i h1 h2 => h i (by omega) (by omega)), List.replicate_succ]

theorem countP_range'_true (p : Nat → Bool) :
    ∀ (n s : Nat), (∀ i, s ≤ i → i < s + n → p i = true) →
    (List.range' s n).countP p = n := by
  intro n
  induction n with
  | zero => intro s _; rfl
  | succ m ih =>
    intro s h
    rw [List.range'_succ, List.countP_cons_of_pos _ _ (h s (by omega) (by omega)),
      ih (s + 1) (fun i h1 h2 => h i (by omega) (by omega))]

theorem countP_range'_false (p : Nat → Bool) :
    ∀ (n s : Nat), (∀ i, s ≤ i → i < s + n → p i = false) →
    (List.range' s n).countP p = 0 := by
  intro n
  induction n with
  | zero => intro s _; rfl
  | succ m ih =>
    intro s h
    rw [List.range'_succ,
      List.countP_cons_of_neg _ _ (by simp [h s (by omega) (by omega)]),
      ih (s + 1) (fun i h1 h2 => h i (by omega) (by omega))]

theorem filter_range'_true (p : Nat → Bool) :
    ∀ (n s : Nat), (∀ i, s ≤ i → i < s + n → p i = true) →
    (List.range' s n).filter p = List.range' s n := by
  intro n
  induction n with
  | zero => intro s _; rfl
  | succ m ih =>
    intro s h
    rw [List.range'_succ, List.filter_cons_of_pos (h s (by omega) (by omega)),
      ih (s + 1) (fun i h1 h2 => h i (by omega) (by omega)), ← List.range'_succ]

theorem filter_range'_false (p : Nat → Bool) :
    ∀ (n s : Nat), (∀ i, s ≤ i → i < s + n → p i = false) →
    (List.range' s n).filter p = [] := by
  intro n
  induction n with
  | zero => intro s _; rfl
  | succ m ih =>
    intro s h
    rw [List.range'_succ, List.filter_cons_of_neg (by simp [h s (by omega) (by omega)]),
      ih (s + 1) (fun i h1 h2 => h i (by omega) (by omega))]

theorem range'_split (s m n : Nat) :
    List.range' s (m + n) = List.range' s m ++ List.range' (s + m) n := by
  rw [Nat.add_comm m n, ← List.range'_append_1]

theorem sumR_split (s m n : Nat) (f : Nat → Nat) :
    sumR s (m + n) f = sumR s m f + sumR (s + m) n f := by
  unfold sumR
  rw [range'_split, List.map_append, List.sum_append]

theorem sumR_const (s n v : Nat) (f : Nat → Nat)
    (h : ∀ i, s ≤ i → i < s + n → f i = v) : sumR s n f = n * v := by
  unfold sumR
  rw [map_range'_const f v n s h, List.sum_replicate, smul_eq_mul]

theorem sumRQ_split (s m n : Nat) (f : Nat → Rat) :
    sumRQ s (m + n) f = sumRQ s m f + sumRQ (s + m) n f := by
  unfold sumRQ
  rw [range'_split, List.map_append, List.sum_append]

theorem sumRQ_const (s n : Nat) (v : Rat) (f : Nat → Rat)
    (h : ∀ i, s ≤ i → i < s + n → f i = v) : sumRQ s n f = (n : Rat) * v := by
  unfold sumRQ
  rw [map_range'_const f v n s h, List.sum_replicate, nsmul_eq_mul]

theorem getLastD_range' (s : Nat) : ∀ n, (List.range' s (n + 1)).getLastD 0 = s + n := by
  intro n
  induction n generalizing s with
  | zero => rfl
  | succ m ih =>
    rw [List.range'_succ]
    have h2 : (List.range' (s + 1) (m + 1)).getLastD 0 = s + 1 + m := ih (s + 1)
    cases hr : List.range' (s + 1) (m + 1) with
    | nil => simp [List.range'_succ] at hr
    | cons a l =>
      rw [hr] at h2
      show (a :: l).getLastD 0 = s + (m + 1)
      rw [h2]
      omega

theorem detect_film_frames_eq (img : Img) :
    detect_film_frames img
      = scanLoop ((img.height : Rat) / 10)
          (emitRegion img.width img.height (maskOf (toL img) img.width img.height))
          0 false 0
          ((List.range img.width).map
            (colSumAt (maskOf (toL img) img.width img.height) img.height)) [] := rfl

theorem scanLoop_emits_closed_run (t : Rat) (emit : Nat → Nat → Option Frame)
    (f : Nat → Nat) (w a b : Nat) (F : Frame)
    (hbw : b < w) (hwide : a < b)
    (hact : ∀ j, a ≤ j → j < b → t < (f j : Rat))
    (hinact : (f b : Rat) ≤ t)
    (hleft : a = 0 ∨ (f (a - 1) : Rat) ≤ t)
    (hemit : emit a b = some F) :
    F ∈ scanLoop t emit 0 false 0 ((List.range w).map f) [] := by
  have hr : List.range' 0 w
      = List.range' 0 a ++ (List.range' a (b - a)
        ++ (List.range' b 1 ++ List.range' (b + 1) (w - b - 1))) := by
    rw [List.range'_append_1 b 1 (w - b - 1),
      show (w - b - 1) + 1 = w - b by omega,
      show List.range' b (w - b) = List.range' (a + (b - a)) (w - b) by
        rw [show a + (b - a) = b by omega],
      List.range'_append_1 a (b - a) (w - b),
      show (w - b) + (b - a) = w - a by omega,
      show List.range' a (w - a) = List.range' (0 + a) (w - a) by simp,
      List.range'_append_1 0 a (w - a),
      show (w - a) + a = w by omega]
  have hsplit : (List.range w).map f
      = (List.range' 0 a).map f
        ++ ((List.range' a (b - a)).map f
          ++ ((List.range' b 1).map f ++ (List.range' (b + 1) (w - b - 1)).map f)) := by
    rw [List.range_eq_range', hr]
    simp [List.map_append]
  rw [hsplit]
  obtain ⟨st1, acc1, hP⟩ :
      ∃ st1 acc1, scanLoop t emit 0 false 0
          ((List.range' 0 a).map f ++ ((List.range' a (b - a)).map f
            ++ ((List.range' b 1).map f ++ (List.range' (b + 1) (w - b - 1)).map f))) []
        = scanLoop t emit a false st1
            ((List.range' a (b - a)).map f
              ++ ((List.range' b 1).map f ++ (List.range' (b + 1) (w - b - 1)).map f)) acc1 := by
    by_cases ha0 : a = 0
    · subst ha0
      exact ⟨0, [], by simp⟩
    · have hprev : (f (a - 1) : Rat) ≤ t := hleft.resolve_left ha0
      have hPdec : (List.range' 0 a).map f
          = (List.range' 0 (a - 1)).map f ++ [f (a - 1)] := by
        conv_lhs => rw [show a = (a - 1) + 1 by omega, List.range'_concat]
        rw [List.map_append]
        simp
      rw [hPdec, List.append_assoc, List.singleton_append]
      obtain ⟨st2, acc2, h⟩ := scanLoop_lands_false t emit
        ((List.range' 0 (a - 1)).map f) (f (a - 1)) _ 0 false 0 [] hprev
      refine ⟨st2, acc2, ?_⟩
      rw [h]
      congr 1
      simp only [List.length_map, List.length_range']
      omega
  rw [hP]
  have hAcons : (List.range' a (b - a)).map f
      = f a :: (List.range' (a + 1) (b - a - 1)).map f := by
    conv_lhs => rw [show b - a = (b - a - 1) + 1 by omega, List.range'_succ]
    rw [List.map_cons]
  rw [hAcons, List.cons_append,
    scanLoop_open t emit (hact a le_rfl hwide) a st1 _ acc1,
    scanLoop_active_block t emit ((List.range' (a + 1) (b - a - 1)).map f)
      (fun x hx => by
        obtain ⟨j, hj, rfl⟩ := List.mem_map.1 hx
        have hm := List.mem_range'_1.1 hj
        exact hact j (by omega) (by omega)) _ (a + 1) a acc1]
  rw [show a + 1 + ((List.range' (a + 1) (b - a - 1)).map f).length = b by
    simp only [List.length_map, List.length_range']; omega]
  rw [show (List.range' b 1).map f = [f b] from rfl, List.singleton_append,
    scanLoop_close t emit hinact b a _ acc1, hemit]
  obtain ⟨ext, hext⟩ := scanLoop_acc_mono t emit
    ((List.range' (b + 1) (w - b - 1)).map f) (b + 1) false a (acc1 ++ (some F).toList)
  rw [hext]
  simp

theorem scanLoop_all_active_nil (t : Rat) (emit : Nat → Nat → Option Frame)
    (f : Nat → Nat) (w : Nat)
    (hall : ∀ j, j < w → t < (f j : Rat)) :
    scanLoop t emit 0 false 0 ((List.range w).map f) [] = [] := by
  cases w with
  | zero => rfl
  | succ m =>
    rw [List.range_eq_range', List.range'_succ, List.map_cons,
      scanLoop_open t emit (hall 0 (by omega)) 0 0 _ []]
    exact scanLoop_active_tail t emit _
      (fun x hx => by
        obtain ⟨j, hj, rfl⟩ := List.mem_map.1 hx
        have hm := List.mem_range'_1.1 hj
        exact hall j (by omega)) 1 0 []

/-- Claim C4, amended.  For every buffer, every maximal run of active
columns of width greater than 100 px that is CLOSED by an inactive column
strictly before the end of the buffer, and whose restricted active rows
NUMBER more than 100 (the source tests the count of active rows, not their
span), is emitted as a frame region (the emitRegion premise packages the
width and row-count minima exactly as the source tests them).  A run that
extends to the right-most column is dropped, not emitted: a buffer all of
whose columns are active — for example a single full-width bright region
on a buffer wider than 100 px — yields zero regions. -/
theorem C4_closed_runs_emitted :
    (∀ (img : Img) (a b : Nat) (F : Frame),
      b < img.width →
      (∀ j, a ≤ j → j < b → colIsActive (toL img) img.width img.height j) →
      ¬ colIsActive (toL img) img.width img.height b →
      (a = 0 ∨ ¬ colIsActive (toL img) img.width img.height (a - 1)) →
      emitRegion img.width img.height (maskOf (toL img) img.width img.height) a b
        = some F →
      F ∈ detect_film_frames img) ∧
    (∀ img : Img,
      (∀ j, j < img.width → colIsActive (toL img) img.width img.height j) →
      detect_film_frames img = []) := by
  constructor
  · intro img a b F hbw hact hinact hleft hemit
    have hwide : a < b := by
      by_contra hc
      have h1 : ¬(100 < b - a) := by omega
      simp only [emitRegion] at hemit
      rw [if_neg h1] at hemit
      exact Option.noConfusion hemit
    rw [detect_film_frames_eq]
    exact scanLoop_emits_closed_run _ _ _ img.width a b F hbw hwide
      (fun j h1 h2 => hact j h1 h2)
      (not_lt.1 hinact)
      (hleft.imp id (fun h => not_lt.1 h))
      hemit
  · intro img hall
    rw [detect_film_frames_eq]
    exact scanLoop_all_active_nil _ _ _ img.width (fun j hj => hall j hj)

theorem toL_imgC4 (r c : Nat) :
    toL imgC4 r c = if 150 ≤ r ∧ 10 ≤ c then 255 else 0 := rfl

theorem rowC4_dark (r : Nat) (hr : r < 150) :
    sumR 0 150 (fun c => toL imgC4 r c) = 0 := by
  rw [sumR_const 0 150 0 _ (fun c h1 h2 => by
    rw [toL_imgC4, if_neg (by omega)])]

theorem rowC4_bright (r : Nat) (h1 : 150 ≤ r) :
    sumR 0 150 (fun c => toL imgC4 r c) = 35700 := by
  rw [show (150 : Nat) = 10 + 140 from rfl, sumR_split,
    sumR_const 0 10 0 _ (fun c hc1 hc2 => by rw [toL_imgC4, if_neg (by omega)]),
    sumR_const 10 140 255 _ (fun c hc1 hc2 => by rw [toL_imgC4, if_pos (by omega)])]

theorem pixelTotal_imgC4 : pixelTotal imgC4 = 5355000 := by
  show sumR 0 300 (fun r => sumR 0 150 (fun c => toL imgC4 r c)) = 5355000
  rw [show (300 : Nat) = 150 + 150 from rfl, sumR_split,
    sumR_const 0 150 0 _ (fun r hr1 hr2 => rowC4_dark r (by omega)),
    sumR_const 150 150 35700 _ (fun r hr1 hr2 => rowC4_bright r (by omega))]

theorem npMean_imgC4 : npMeanGray (toL imgC4) 150 300 = 119 := by
  unfold npMeanGray
  rw [show sumR 0 300 (fun r => sumR 0 150 (fun c => toL imgC4 r c)) = 5355000
    from pixelTotal_imgC4]
  norm_num

theorem npVar_imgC4 : npVarGray (toL imgC4) 150 300 = 16184 := by
  unfold npVarGray
  rw [npMean_imgC4]
  have hdark : ∀ r, r < 150 →
      sumRQ 0 150 (fun c => ((toL imgC4 r c : Rat) - 119) ^ 2) = 2124150 := by
    intro r hr
    rw [sumRQ_const 0 150 14161 _ (fun c h1 h2 => by
      rw [toL_imgC4, if_neg (by omega)]; norm_num)]
    norm_num
  have hbright : ∀ r, 150 ≤ r →
      sumRQ 0 150 (fun c => ((toL imgC4 r c : Rat) - 119) ^ 2) = 2731050 := by
    intro r hr
    rw [show (150 : Nat) = 10 + 140 from rfl, sumRQ_split,
      sumRQ_const 0 10 14161 _ (fun c h1 h2 => by
        rw [toL_imgC4, if_neg (by omega)]; norm_num),
      sumRQ_const 10 140 18496 _ (fun c h1 h2 => by
        rw [toL_imgC4, if_pos (by omega)]; norm_num)]
    norm_num
  rw [show (300 : Nat) = 150 + 150 from rfl, sumRQ_split,
    sumRQ_const 0 150 2124150 _ (fun r h1 h2 => hdark r (by omega)),
    sumRQ_const 150 150 2731050 _ (fun r h1 h2 => hbright r (by omega))]
  norm_num

theorem npThreshold_119_bright : npThresholdLt 119 16184 255 = true := by
  simp only [npThresholdLt, Bool.and_eq_true, decide_eq_true_eq]
  norm_num

theorem npThreshold_119_dark : npThresholdLt 119 16184 0 = false := by
  simp only [npThresholdLt, Bool.and_eq_true, decide_eq_true_eq, Bool.and_eq_false_iff,
    decide_eq_false_iff_not]
  left
  norm_num

theorem mask_imgC4 (r c : Nat) :
    maskOf (toL imgC4) 150 300 r c
      = if 150 ≤ r ∧ 10 ≤ c then true else false := by
  unfold maskOf
  rw [npMean_imgC4, npVar_imgC4, toL_imgC4]
  by_cases h : 150 ≤ r ∧ 10 ≤ c
  · rw [if_pos h, if_pos h, npThreshold_119_bright]
  · rw [if_neg h, if_neg h, npThreshold_119_dark]

theorem colSum_imgC4_active (j : Nat) (h1 : 10 ≤ j) :
    colSumAt (maskOf (toL imgC4) 150 300) 300 j = 150 := by
  unfold colSumAt
  rw [List.range_eq_range',
    show List.range' 0 300 = List.range' 0 150 ++ List.range' 150 150
      from (List.range'_append_1 0 150 150).symm,
    List.countP_append,
    countP_range'_false _ 150 0 (fun r hr1 hr2 => by
      rw [mask_imgC4, if_neg (by omega)]),
    countP_range'_true _ 150 150 (fun r hr1 hr2 => by
      rw [mask_imgC4, if_pos (by omega)])]

theorem colSum_imgC4_inactive (j : Nat) (h2 : j < 10) :
    colSumAt (maskOf (toL imgC4) 150 300) 300 j = 0 := by
  unfold colSumAt
  rw [List.range_eq_range',
    countP_range'_false _ 300 0 (fun r hr1 hr2 => by
      rw [mask_imgC4, if_neg (by omega)])]

theorem detect_imgC4 : detect_film_frames imgC4 = [] := by
  rw [detect_film_frames_eq]
  show scanLoop (((300 : Nat) : Rat) / 10)
      (emitRegion 150 300 (maskOf (toL imgC4) 150 300)) 0 false 0
      ((List.range 150).map (colSumAt (maskOf (toL imgC4) 150 300) 300)) [] = []
  rw [List.range_eq_range',
    show List.range' 0 150 = List.range' 0 10 ++ List.range' 10 140
      from (List.range'_append_1 0 10 140).symm,
    List.map_append,
    scanLoop_inactive_block _ _ _ (fun x hx => by
      obtain ⟨j, hj, rfl⟩ := List.mem_map.1 hx
      have hm := List.mem_range'_1.1 hj
      rw [colSum_imgC4_inactive j (by omega)]
      norm_num) _ 0 0 [],
    show List.range' 10 140 = 10 :: List.range' 11 139 from List.range'_succ 10 139 1,
    List.map_cons,
    scanLoop_open _ _ (by
      rw [colSum_imgC4_active 10 le_rfl]
      norm_num) _ 0 _ []]
  exact scanLoop_active_tail _ _ _ (fun x hx => by
    obtain ⟨j, hj, rfl⟩ := List.mem_map.1 hx
    have hm := List.mem_range'_1.1 hj
    rw [colSum_imgC4_active j (by omega)]
    norm_num) _ 10 []

theorem rowSumIn_imgC4 (r : Nat) :
    rowSumIn (maskOf (toL imgC4) 150 300) 10 150 r = if 150 ≤ r then 140 else 0 := by
  unfold rowSumIn
  show (List.range' 10 140).countP _ = _
  by_cases h : 150 ≤ r
  · rw [if_pos h, countP_range'_true _ 140 10 (fun j h1 h2 => by
      rw [mask_imgC4, if_pos (by omega)])]
  · rw [if_neg h, countP_range'_false _ 140 10 (fun j h1 h2 => by
      rw [mask_imgC4, if_neg (by omega)])]

theorem rwc_imgC4 :
    rowsWithContent (maskOf (toL imgC4) 150 300) 300 10 150 = List.range' 150 150 := by
  unfold rowsWithContent
  rw [List.range_eq_range',
    show List.range' 0 300 = List.range' 0 150 ++ List.range' 150 150
      from (List.range'_append_1 0 150 150).symm,
    List.filter_append,
    filter_range'_false _ 150 0 (fun r h1 h2 => by
      rw [show rowSumIn (maskOf (toL imgC4) 150 300) 10 150 r = 0 by
        rw [rowSumIn_imgC4, if_neg (by omega)]]
      simp only [decide_eq_false_iff_not]
      norm_num),
    filter_range'_true _ 150 150 (fun r h1 h2 => by
      rw [show rowSumIn (maskOf (toL imgC4) 150 300) 10 150 r = 140 by
        rw [rowSumIn_imgC4, if_pos (by omega)]]
      simp only [decide_eq_true_eq]
      norm_num)]
  simp

/-- Claim C4, counterexample.  On imgC4 the active columns are exactly
10..149 — a maximal run of width 140 > 100 px that extends to the
right-most column of the 150-px-wide buffer — and its restricted active
rows are rows 150..299 (count 150 > 100, span 299 - 150 = 149 > 100 px),
so the claim says this run is emitted as a frame region; but the detector
returns the empty list: the loop emits only when it meets an inactive
column, and a run still open at the last column is dropped. -/
theorem C4_counterexample :
    ((List.range 150).filter (fun j => decide (colIsActive (toL imgC4) 150 300 j))
      = List.range' 10 140) ∧
    (rowsWithContent (maskOf (toL imgC4) 150 300) 300 10 150).length = 150 ∧
    (rowsWithContent (maskOf (toL imgC4) 150 300) 300 10 150).headD 0 = 150 ∧
    (rowsWithContent (maskOf (toL imgC4) 150 300) 300 10 150).getLastD 0 = 299 ∧
    detect_film_frames imgC4 = [] := by
  refine ⟨?_, ?_, ?_, ?_, detect_imgC4⟩
  · rw [List.range_eq_range',
      show List.range' 0 150 = List.range' 0 10 ++ List.range' 10 140
        from (List.range'_append_1 0 10 140).symm,
      List.filter_append,
      filter_range'_false _ 10 0 (fun j h1 h2 => by
        simp only [decide_eq_false_iff_not]
        unfold colIsActive
        rw [colSum_imgC4_inactive j (by omega)]
        norm_num),
      filter_range'_true _ 140 10 (fun j h1 h2 => by
        simp only [decide_eq_true_eq]
        unfold colIsActive
        rw [colSum_imgC4_active j (by omega)]
        norm_num)]
    simp
  · rw [rwc_imgC4, List.length_range']
  · rw [rwc_imgC4, show List.range' 150 150 = 150 :: List.range' 151 149
      from List.range'_succ 150 149 1]
    rfl
  · rw [rwc_imgC4]
    exact getLastD_range' 150 149

theorem toL_img7 (r c : Nat) :
    toL img7 r c
      = if (200 ≤ r ∧ r < 800) ∧ ((100 ≤ c ∧ c < 500) ∨ (1200 ≤ c ∧ c < 1600))
        then 255 else 0 := rfl

theorem row7_dark (r : Nat) (hr : r < 200 ∨ 800 ≤ r) :
    sumR 0 2000 (fun c => toL img7 r c) = 0 := by
  rw [sumR_const 0 2000 0 _ (fun c h1 h2 => by
    rw [toL_img7, if_neg (by omega)])]

theorem row7_bright (r : Nat) (h1 : 200 ≤ r) (h2 : r < 800) :
    sumR 0 2000 (fun c => toL img7 r c) = 204000 := by
  rw [show (2000 : Nat) = 100 + (400 + (700 + (400 + 400))) from rfl,
    sumR_split, sumR_split, sumR_split, sumR_split]
  rw [sumR_const 0 100 0 _ (fun c hc1 hc2 => by rw [toL_img7, if_neg (by omega)]),
    sumR_const 100 400 255 _ (fun c hc1 hc2 => by rw [toL_img7, if_pos (by omega)]),
    sumR_const 500 700 0 _ (fun c hc1 hc2 => by rw [toL_img7, if_neg (by omega)]),
    sumR_const 1200 400 255 _ (fun c hc1 hc2 => by rw [toL_img7, if_pos (by omega)]),
    sumR_const 1600 400 0 _ (fun c hc1 hc2 => by rw [toL_img7, if_neg (by omega)])]

theorem sumR_eq_of_split (s m n : Nat) (f : Nat → Nat) (x y : Nat)
    (hx : sumR s m f = x) (hy : sumR (s + m) n f = y) :
    sumR s (m + n) f = x + y := by
  rw [sumR_split, hx, hy]

theorem sumRQ_eq_of_split (s m n : Nat) (f : Nat → Rat) (x y : Rat)
    (hx : sumRQ s m f = x) (hy : sumRQ (s + m) n f = y) :
    sumRQ s (m + n) f = x + y := by
  rw [sumRQ_split, hx, hy]

theorem pixelTotal_img7 : pixelTotal img7 = 122400000 := by
  have h1 : sumR 0 200 (fun r => sumR 0 2000 (fun c => toL img7 r c)) = 0 :=
    sumR_const 0 200 0 _ (fun r hr1 hr2 => row7_dark r (by omega))
  have h2 : sumR 200 600 (fun r => sumR 0 2000 (fun c => toL img7 r c)) = 122400000 := by
    rw [sumR_const 200 600 204000 _ (fun r hr1 hr2 => row7_bright r (by omega) (by omega))]
  have h3 : sumR 800 200 (fun r => sumR 0 2000 (fun c => toL img7 r c)) = 0 :=
    sumR_const 800 200 0 _ (fun r hr1 hr2 => row7_dark r (by omega))
  have hA : sumR 200 800 (fun r => sumR 0 2000 (fun c => toL img7 r c)) = 122400000 := by
    have := sumR_eq_of_split 200 600 200 (fun r => sumR 0 2000 (fun c => toL img7 r c))
      122400000 0 h2 h3
    simpa using this
  have hB : sumR 0 1000 (fun r => sumR 0 2000 (fun c => toL img7 r c)) = 122400000 := by
    have := sumR_eq_of_split 0 200 800 (fun r => sumR 0 2000 (fun c => toL img7 r c))
      0 122400000 h1 hA
    simpa using this
  exact hB

theorem npMean_img7 : npMeanGray (toL img7) 2000 1000 = 306 / 5 := by
  unfold npMeanGray
  rw [show sumR 0 1000 (fun r => sumR 0 2000 (fun c => toL img7 r c)) = 122400000
    from pixelTotal_img7]
  norm_num

theorem var7row_dark (r : Nat) (hr : r < 200 ∨ 800 ≤ r) :
    sumRQ 0 2000 (fun c => ((toL img7 r c : Rat) - 306 / 5) ^ 2) = 7490880 := by
  rw [sumRQ_const 0 2000 (93636 / 25) _ (fun c h1 h2 => by
    rw [toL_img7, if_neg (by omega)]; norm_num)]
  norm_num

theorem var7row_bright (r : Nat) (hr1 : 200 ≤ r) (hr2 : r < 800) :
    sumRQ 0 2000 (fun c => ((toL img7 r c : Rat) - 306 / 5) ^ 2) = 34541280 := by
  have e1 : sumRQ 0 100 (fun c => ((toL img7 r c : Rat) - 306 / 5) ^ 2)
      = 100 * (93636 / 25) :=
    sumRQ_const 0 100 (93636 / 25) _ (fun c h1 h2 => by
      rw [toL_img7, if_neg (by omega)]; norm_num)
  have e2 : sumRQ 100 400 (fun c => ((toL img7 r c : Rat) - 306 / 5) ^ 2)
      = 400 * (938961 / 25) :=
    sumRQ_const 100 400 (938961 / 25) _ (fun c h1 h2 => by
      rw [toL_img7, if_pos (by omega)]; norm_num)
  have e3 : sumRQ 500 700 (fun c => ((toL img7 r c : Rat) - 306 / 5) ^ 2)
      = 700 * (93636 / 25) :=
    sumRQ_const 500 700 (93636 / 25) _ (fun c h1 h2 => by
      rw [toL_img7, if_neg (by omega)]; norm_num)
  have e4 : sumRQ 1200 400 (fun c => ((toL img7 r c : Rat) - 306 / 5) ^ 2)
      = 400 * (938961 / 25) :=
    sumRQ_const 1200 400 (938961 / 25) _ (fun c h1 h2 => by
      rw [toL_img7, if_pos (by omega)]; norm_num)
  have e5 : sumRQ 1600 400 (fun c => ((toL img7 r c : Rat) - 306 / 5) ^ 2)
      = 400 * (93636 / 25) :=
    sumRQ_const 1600 400 (93636 / 25) _ (fun c h1 h2 => by
      rw [toL_img7, if_neg (by omega)]; norm_num)
  have e45 : sumRQ 1200 800 (fun c => ((toL img7 r c : Rat) - 306 / 5) ^ 2)
      = 400 * (938961 / 25) + 400 * (93636 / 25) :=
    sumRQ_eq_of_split 1200 400 400 _ _ _ e4 e5
  have e345 : sumRQ 500 1500 (fun c => ((toL img7 r c : Rat) - 306 / 5) ^ 2)
      = 700 * (93636 / 25) + (400 * (938961 / 25) + 400 * (93636 / 25)) :=
    sumRQ_eq_of_split 500 700 800 _ _ _ e3 e45
  have e2345 : sumRQ 100 1900 (fun c => ((toL img7 r c : Rat) - 306 / 5) ^ 2)
      = 400 * (938961 / 25)
        + (700 * (93636 / 25) + (400 * (938961 / 25) + 400 * (93636 / 25))) :=
    sumRQ_eq_of_split 100 400 1500 _ _ _ e2 e345
  have eall := sumRQ_eq_of_split 0 100 1900 _ _ _ e1 e2345
  rw [eall]
  norm_num

theorem npVar_img7 : npVarGray (toL img7) 2000 1000 = 296514 / 25 := by
  unfold npVarGray
  rw [npMean_img7]
  have h1 : sumRQ 0 200
      (fun r => sumRQ 0 2000 (fun c => ((toL img7 r c : Rat) - 306 / 5) ^ 2))
      = 200 * 7490880 :=
    sumRQ_const 0 200 7490880 _ (fun r hh1 hh2 => var7row_dark r (by omega))
  have h2 : sumRQ 200 600
      (fun r => sumRQ 0 2000 (fun c => ((toL img7 r c : Rat) - 306 / 5) ^ 2))
      = 600 * 34541280 :=
    sumRQ_const 200 600 34541280 _ (fun r hh1 hh2 => var7row_bright r (by omega) (by omega))
  have h3 : sumRQ 800 200
      (fun r => sumRQ 0 2000 (fun c => ((toL img7 r c : Rat) - 306 / 5) ^ 2))
      = 200 * 7490880 :=
    sumRQ_const 800 200 7490880 _ (fun r hh1 hh2 => var7row_dark r (by omega))
  have h23 := sumRQ_eq_of_split 200 600 200 _ _ _ h2 h3
  have hall := sumRQ_eq_of_split 0 200 800 _ _ _ h1 h23
  rw [hall]
  norm_num

theorem npThreshold7_bright : npThresholdLt (306 / 5) (296514 / 25) 255 = true := by
  simp only [npThresholdLt, Bool.and_eq_true, decide_eq_true_eq]
  norm_num

theorem npThreshold7_dark : npThresholdLt (306 / 5) (296514 / 25) 0 = false := by
  simp only [npThresholdLt, Bool.and_eq_false_iff, decide_eq_false_iff_not]
  left
  norm_num

theorem mask_img7 (r c : Nat) :
    maskOf (toL img7) 2000 1000 r c
      = if (200 ≤ r ∧ r < 800) ∧ ((100 ≤ c ∧ c < 500) ∨ (1200 ≤ c ∧ c < 1600))
        then true else false := by
  unfold maskOf
  rw [npMean_img7, npVar_img7, toL_img7]
  by_cases h : (200 ≤ r ∧ r < 800) ∧ ((100 ≤ c ∧ c < 500) ∨ (1200 ≤ c ∧ c < 1600))
  · rw [if_pos h, if_pos h, npThreshold7_bright]
  · rw [if_neg h, if_neg h, npThreshold7_dark]

theorem colSum_img7_active (j : Nat)
    (hj : (100 ≤ j ∧ j < 500) ∨ (1200 ≤ j ∧ j < 1600)) :
    colSumAt (maskOf (toL img7) 2000 1000) 1000 j = 600 := by
  unfold colSumAt
  rw [List.range_eq_range',
    show List.range' 0 1000
        = List.range' 0 200 ++ (List.range' 200 600 ++ List.range' 800 200) from by
      rw [List.range'_append_1 200 600 200, show (200 : Nat) + 600 = 800 from rfl]
      rw [List.range'_append_1 0 200 800]
    ,
    List.countP_append, List.countP_append,
    countP_range'_false _ 200 0 (fun r hr1 hr2 => by
      rw [mask_img7, if_neg (by omega)]),
    countP_range'_true _ 600 200 (fun r hr1 hr2 => by
      rw [mask_img7, if_pos (by omega)]),
    countP_range'_false _ 200 800 (fun r hr1 hr2 => by
      rw [mask_img7, if_neg (by omega)])]

theorem colSum_img7_inactive (j : Nat)
    (hj : j < 100 ∨ (500 ≤ j ∧ j < 1200) ∨ 1600 ≤ j) :
    colSumAt (maskOf (toL img7) 2000 1000) 1000 j = 0 := by
  unfold colSumAt
  rw [List.range_eq_range',
    countP_range'_false _ 1000 0 (fun r hr1 hr2 => by
      rw [mask_img7, if_neg (by omega)])]

theorem range1000_split :
    List.range' 0 1000
      = List.range' 0 200 ++ (List.range' 200 600 ++ List.range' 800 200) := by
  rw [List.range'_append_1 200 600 200, show (200 : Nat) + 600 = 800 from rfl,
    List.range'_append_1 0 200 800]

theorem rowSumIn_img7_1 (r : Nat) :
    rowSumIn (maskOf (toL img7) 2000 1000) 100 500 r
      = if 200 ≤ r ∧ r < 800 then 400 else 0 := by
  unfold rowSumIn
  show (List.range' 100 400).countP _ = _
  by_cases h : 200 ≤ r ∧ r < 800
  · rw [if_pos h, countP_range'_true _ 400 100 (fun j h1 h2 => by
      rw [mask_img7, if_pos (by omega)])]
  · rw [if_neg h, countP_range'_false _ 400 100 (fun j h1 h2 => by
      rw [mask_img7, if_neg (by omega)])]

theorem rowSumIn_img7_2 (r : Nat) :
    rowSumIn (maskOf (toL img7) 2000 1000) 1200 1600 r
      = if 200 ≤ r ∧ r < 800 then 400 else 0 := by
  unfold rowSumIn
  show (List.range' 1200 400).countP _ = _
  by_cases h : 200 ≤ r ∧ r < 800
  · rw [if_pos h, countP_range'_true _ 400 1200 (fun j h1 h2 => by
      rw [mask_img7, if_pos (by omega)])]
  · rw [if_neg h, countP_range'_false _ 400 1200 (fun j h1 h2 => by
      rw [mask_img7, if_neg (by omega)])]

theorem rwc_img7_1 :
    rowsWithContent (maskOf (toL img7) 2000 1000) 1000 100 500
      = List.range' 200 600 := by
  unfold rowsWithContent
  rw [List.range_eq_range', range1000_split, List.filter_append, List.filter_append,
    filter_range'_false _ 200 0 (fun r h1 h2 => by
      rw [show rowSumIn (maskOf (toL img7) 2000 1000) 100 500 r = 0 by
        rw [rowSumIn_img7_1, if_neg (by omega)]]
      simp only [decide_eq_false_iff_not]
      norm_num),
    filter_range'_true _ 600 200 (fun r h1 h2 => by
      rw [show rowSumIn (maskOf (toL img7) 2000 1000) 100 500 r = 400 by
        rw [rowSumIn_img7_1, if_pos (by omega)]]
      simp only [decide_eq_true_eq]
      norm_num),
    filter_range'_false _ 200 800 (fun r h1 h2 => by
      rw [show rowSumIn (maskOf (toL img7) 2000 1000) 100 500 r = 0 by
        rw [rowSumIn_img7_1, if_neg (by omega)]]
      simp only [decide_eq_false_iff_not]
      norm_num)]
  simp

theorem rwc_img7_2 :
    rowsWithContent (maskOf (toL img7) 2000 1000) 1000 1200 1600
      = List.range' 200 600 := by
  unfold rowsWithContent
  rw [List.range_eq_range', range1000_split, List.filter_append, List.filter_append,
    filter_range'_false _ 200 0 (fun r h1 h2 => by
      rw [show rowSumIn (maskOf (toL img7) 2000 1000) 1200 1600 r = 0 by
        rw [rowSumIn_img7_2, if_neg (by omega)]]
      simp only [decide_eq_false_iff_not]
      norm_num),
    filter_range'_true _ 600 200 (fun r h1 h2 => by
      rw [show rowSumIn (maskOf (toL img7) 2000 1000) 1200 1600 r = 400 by
        rw [rowSumIn_img7_2, if_pos (by omega)]]
      simp only [decide_eq_true_eq]
      norm_num),
    filter_range'_false _ 200 800 (fun r h1 h2 => by
      rw [show rowSumIn (maskOf (toL img7) 2000 1000) 1200 1600 r = 0 by
        rw [rowSumIn_img7_2, if_neg (by omega)]]
      simp only [decide_eq_false_iff_not]
      norm_num)]
  simp

theorem emitRegion_pos (w h : Nat) (mask : Nat → Nat → Bool) (start i : Nat)
    (h1 : 100 < i - start) (h2 : 100 < (rowsWithContent mask h start i).length) :
    emitRegion w h mask start i
      = some (start - 10, (rowsWithContent mask h start i).headD 0 - 10,
          min w (i + 10), min h ((rowsWithContent mask h start i).getLastD 0 + 10)) := by
  simp only [emitRegion]
  rw [if_pos h1, if_pos h2]

theorem emit_img7_1 :
    emitRegion 2000 1000 (maskOf (toL img7) 2000 1000) 100 500
      = some (90, 190, 510, 809) := by
  have hh : (rowsWithContent (maskOf (toL img7) 2000 1000) 1000 100 500).headD 0 = 200 := by
    rw [rwc_img7_1,
      show List.range' 200 600 = 200 :: List.range' 201 599 from List.range'_succ 200 599 1]
    rfl
  have hl : (rowsWithContent (maskOf (toL img7) 2000 1000) 1000 100 500).getLastD 0 = 799 := by
    rw [rwc_img7_1]
    exact getLastD_range' 200 599
  rw [emitRegion_pos 2000 1000 _ 100 500 (by norm_num)
    (by rw [rwc_img7_1, List.length_range']; norm_num), hh, hl]
  rfl

theorem emit_img7_2 :
    emitRegion 2000 1000 (maskOf (toL img7) 2000 1000) 1200 1600
      = some (1190, 190, 1610, 809) := by
  have hh : (rowsWithContent (maskOf (toL img7) 2000 1000) 1000 1200 1600).headD 0 = 200 := by
    rw [rwc_img7_2,
      show List.range' 200 600 = 200 :: List.range' 201 599 from List.range'_succ 200 599 1]
    rfl
  have hl : (rowsWithContent (maskOf (toL img7) 2000 1000) 1000 1200 1600).getLastD 0 = 799 := by
    rw [rwc_img7_2]
    exact getLastD_range' 200 599
  rw [emitRegion_pos 2000 1000 _ 1200 1600 (by norm_num)
    (by rw [rwc_img7_2, List.length_range']; norm_num), hh, hl]
  rfl

theorem range2000_split :
    List.range' 0 2000
      = List.range' 0 100 ++ (List.range' 100 400 ++ (List.range' 500 700
        ++ (List.range' 1200 400 ++ List.range' 1600 400))) := by
  rw [List.range'_append_1 1200 400 400, show (400 : Nat) + 400 = 800 from rfl,
    List.range'_append_1 500 700 800, show (800 : Nat) + 700 = 1500 from rfl,
    List.range'_append_1 100 400 1500, show (1500 : Nat) + 400 = 1900 from rfl,
    List.range'_append_1 0 100 1900]

theorem f7_block_le (s n : Nat) (h : ∀ j, s ≤ j → j < s + n → f7 j = 0) :
    ∀ x ∈ (List.range' s n).map f7, (x : Rat) ≤ T7 := fun x hx => by
  obtain ⟨j, hj, rfl⟩ := List.mem_map.1 hx
  have hm := List.mem_range'_1.1 hj
  rw [h j hm.1 hm.2]
  show ((0 : Nat) : Rat) ≤ T7
  norm_num [T7]

theorem f7_block_gt (s n : Nat) (h : ∀ j, s ≤ j → j < s + n → f7 j = 600) :
    ∀ x ∈ (List.range' s n).map f7, T7 < (x : Rat) := fun x hx => by
  obtain ⟨j, hj, rfl⟩ := List.mem_map.1 hx
  have hm := List.mem_range'_1.1 hj
  rw [h j hm.1 hm.2]
  show T7 < ((600 : Nat) : Rat)
  norm_num [T7]

set_option maxRecDepth 8000 in
set_option maxHeartbeats 3200000 in
theorem detect_img7 :
    detect_film_frames img7 = [(90, 190, 510, 809), (1190, 190, 1610, 809)] := by
  have e0 : (List.range 2000).map f7 = (List.range' 0 100).map f7 ++ cs7_1 := by
    rw [List.range_eq_range', range2000_split]
    unfold cs7_1
    simp [List.map_append]
  have w1 : scanLoop T7 E7 0 false 0 ((List.range' 0 100).map f7 ++ cs7_1) []
      = scanLoop T7 E7 100 false 0 cs7_1 [] := by
    have := scanLoop_inactive_block T7 E7 ((List.range' 0 100).map f7)
      (f7_block_le 0 100 (fun j h1 h2 => colSum_img7_inactive j (Or.inl (by omega))))
      cs7_1 0 0 []
    simpa using this
  have e1 : cs7_1 = f7 100 :: ((List.range' 101 399).map f7 ++ cs7_2) := by
    unfold cs7_1 cs7_2
    rw [show List.range' 100 400 = 100 :: List.range' 101 399
      from List.range'_succ 100 399 1, List.map_cons, List.cons_append]
  have w2 : scanLoop T7 E7 100 false 0 (f7 100 :: ((List.range' 101 399).map f7 ++ cs7_2)) []
      = scanLoop T7 E7 101 true 100 ((List.range' 101 399).map f7 ++ cs7_2) [] :=
    scanLoop_open T7 E7 (by
      rw [show f7 100 = 600 from colSum_img7_active 100 (Or.inl (by omega))]
      show T7 < ((600 : Nat) : Rat)
      norm_num [T7]) 100 0 _ []
  have w3 : scanLoop T7 E7 101 true 100 ((List.range' 101 399).map f7 ++ cs7_2) []
      = scanLoop T7 E7 500 true 100 cs7_2 [] := by
    have := scanLoop_active_block T7 E7 ((List.range' 101 399).map f7)
      (f7_block_gt 101 399 (fun j h1 h2 => colSum_img7_active j (Or.inl (by omega))))
      cs7_2 101 100 []
    simpa using this
  have e2 : cs7_2 = f7 500 :: ((List.range' 501 699).map f7 ++ cs7_3) := by
    unfold cs7_2 cs7_3
    rw [show List.range' 500 700 = 500 :: List.range' 501 699
      from List.range'_succ 500 699 1, List.map_cons, List.cons_append]
  have w4 : scanLoop T7 E7 500 true 100 (f7 500 :: ((List.range' 501 699).map f7 ++ cs7_3)) []
      = scanLoop T7 E7 501 false 100 ((List.range' 501 699).map f7 ++ cs7_3)
          ([] ++ (E7 100 500).toList) :=
    scanLoop_close T7 E7 (by
      rw [show f7 500 = 0 from colSum_img7_inactive 500 (Or.inr (Or.inl (by omega)))]
      show ((0 : Nat) : Rat) ≤ T7
      norm_num [T7]) 500 100 _ []
  have hacc1 : ([] : List Frame) ++ (E7 100 500).toList = [(90, 190, 510, 809)] := by
    rw [show E7 100 500 = some (90, 190, 510, 809) from emit_img7_1]
    rfl
  have w5 : scanLoop T7 E7 501 false 100 ((List.range' 501 699).map f7 ++ cs7_3)
        [(90, 190, 510, 809)]
      = scanLoop T7 E7 1200 false 100 cs7_3 [(90, 190, 510, 809)] := by
    have := scanLoop_inactive_block T7 E7 ((List.range' 501 699).map f7)
      (f7_block_le 501 699 (fun j h1 h2 => colSum_img7_inactive j (Or.inr (Or.inl (by omega)))))
      cs7_3 501 100 [(90, 190, 510, 809)]
    simpa using this
  have e3 : cs7_3 = f7 1200 :: ((List.range' 1201 399).map f7 ++ cs7_4) := by
    unfold cs7_3 cs7_4
    rw [show List.range' 1200 400 = 1200 :: List.range' 1201 399
      from List.range'_succ 1200 399 1, List.map_cons, List.cons_append]
  have w6 : scanLoop T7 E7 1200 false 100
        (f7 1200 :: ((List.range' 1201 399).map f7 ++ cs7_4)) [(90, 190, 510, 809)]
      = scanLoop T7 E7 1201 true 1200 ((List.range' 1201 399).map f7 ++ cs7_4)
          [(90, 190, 510, 809)] :=
    scanLoop_open T7 E7 (by
      rw [show f7 1200 = 600 from colSum_img7_active 1200 (Or.inr (by omega))]
      show T7 < ((600 : Nat) : Rat)
      norm_num [T7]) 1200 100 _ [(90, 190, 510, 809)]
  have w7 : scanLoop T7 E7 1201 true 1200 ((List.range' 1201 399).map f7 ++ cs7_4)
        [(90, 190, 510, 809)]
      = scanLoop T7 E7 1600 true 1200 cs7_4 [(90, 190, 510, 809)] := by
    have := scanLoop_active_block T7 E7 ((List.range' 1201 399).map f7)
      (f7_block_gt 1201 399 (fun j h1 h2 => colSum_img7_active j (Or.inr (by omega))))
      cs7_4 1201 1200 [(90, 190, 510, 809)]
    simpa using this
  have e4 : cs7_4 = f7 1600 :: (List.range' 1601 399).map f7 := by
    unfold cs7_4
    rw [show List.range' 1600 400 = 1600 :: List.range' 1601 399
      from List.range'_succ 1600 399 1, List.map_cons]
  have w8 : scanLoop T7 E7 1600 true 1200 (f7 1600 :: (List.range' 1601 399).map f7)
        [(90, 190, 510, 809)]
      = scanLoop T7 E7 1601 false 1200 ((List.range' 1601 399).map f7)
          ([(90, 190, 510, 809)] ++ (E7 1200 1600).toList) :=
    scanLoop_close T7 E7 (by
      rw [show f7 1600 = 0 from colSum_img7_inactive 1600 (Or.inr (Or.inr (by omega)))]
      show ((0 : Nat) : Rat) ≤ T7
      norm_num [T7]) 1600 1200 _ [(90, 190, 510, 809)]
  have hacc2 : [(90, 190, 510, 809)] ++ (E7 1200 1600).toList
      = [(90, 190, 510, 809), (1190, 190, 1610, 809)] := by
    rw [show E7 1200 1600 = some (1190, 190, 1610, 809) from emit_img7_2]
    rfl
  have w9 : scanLoop T7 E7 1601 false 1200 ((List.range' 1601 399).map f7)
        [(90, 190, 510, 809), (1190, 190, 1610, 809)]
      = [(90, 190, 510, 809), (1190, 190, 1610, 809)] :=
    scanLoop_inactive_tail T7 E7 _
      (f7_block_le 1601 399 (fun j h1 h2 => colSum_img7_inactive j (Or.inr (Or.inr (by omega)))))
      1601 1200 _
  rw [detect_film_frames_eq, show img7.width = 2000 from rfl,
    show img7.height = 1000 from rfl]
  show scanLoop T7 E7 0 false 0 ((List.range 2000).map f7) []
      = [(90, 190, 510, 809), (1190, 190, 1610, 809)]
  rw [e0, w1, e1, w2, w3, e2, w4, hacc1, w5, e3, w6, w7, e4, w8, hacc2, w9]

/-- Claim C7, amended.  The synthetic 2000 x 1000 two-rectangle buffer
yields exactly 2 regions, in left-to-right order.  Each region pads the
detected run by 10 px with the detector's own conventions: left = run
start - 10, top = first active row - 10, right = run end (exclusive) + 10,
bottom = LAST active row (inclusive) + 10, clamped to the buffer.  For the
rectangles (columns 100..499 / 1200..1599, rows 200..799) this gives
(90, 190, 510, 809) and (1190, 190, 1610, 809): the bottom coordinate pads
the inclusive last row, so in exclusive (crop) coordinates the bottom edge
receives 9 px of padding, one less than the uniform 10 px of the claim. -/
theorem C7_two_regions :
    detect_film_frames img7 = [(90, 190, 510, 809), (1190, 190, 1610, 809)] :=
  detect_img7

/-- Claim C7, counterexample.  The detector's output on the synthetic
buffer differs from "the rectangle's bounding box padded by 10 px on all
sides" under either coordinate convention: with exclusive right/bottom
(PIL crop boxes) the padded boxes would be (90, 190, 510, 810) and
(1190, 190, 1610, 810); with inclusive right/bottom they would be
(90, 190, 509, 809) and (1190, 190, 1609, 809).  The actual output
(90, 190, 510, 809) / (1190, 190, 1610, 809) matches neither: the
horizontal coordinates pad the exclusive run end while the vertical pads
the inclusive last row. -/
theorem C7_counterexample :
    detect_film_frames img7 = [(90, 190, 510, 809), (1190, 190, 1610, 809)] ∧
    detect_film_frames img7 ≠ [(90, 190, 510, 810), (1190, 190, 1610, 810)] ∧
    detect_film_frames img7 ≠ [(90, 190, 509, 809), (1190, 190, 1609, 809)] := by
  refine ⟨detect_img7, ?_, ?_⟩
  · rw [detect_img7]
    decide
  · rw [detect_img7]
    decide

theorem npMean_imgAA : npMeanGray (toL imgAA) 1 2 = 1 := by
  unfold npMeanGray
  rw [show sumR 0 2 (fun r => sumR 0 1 (fun c => toL imgAA r c)) = 2 from rfl]
  norm_num

theorem inner_var_AA0 : sumRQ 0 1 (fun c => ((toL imgAA 0 c : Rat) - 1) ^ 2) = 1 := by
  unfold sumRQ
  rw [show List.range' 0 1 = [0] from rfl]
  simp only [List.map_cons, List.map_nil, List.sum_cons, List.sum_nil]
  rw [show toL imgAA 0 0 = 2 from rfl]
  norm_num

theorem inner_var_AA1 : sumRQ 0 1 (fun c => ((toL imgAA 1 c : Rat) - 1) ^ 2) = 1 := by
  unfold sumRQ
  rw [show List.range' 0 1 = [0] from rfl]
  simp only [List.map_cons, List.map_nil, List.sum_cons, List.sum_nil]
  rw [show toL imgAA 1 0 = 0 from rfl]
  norm_num

theorem npVar_imgAA : npVarGray (toL imgAA) 1 2 = 1 := by
  unfold npVarGray
  rw [npMean_imgAA]
  rw [show sumRQ 0 2 (fun r => sumRQ 0 1 (fun c => ((toL imgAA r c : Rat) - 1) ^ 2))
      = 2 from by
    unfold sumRQ
    rw [show List.range' 0 2 = [0, 1] from rfl]
    simp only [List.map_cons, List.map_nil, List.sum_cons, List.sum_nil]
    rw [show ((List.range' 0 1).map (fun c => ((toL imgAA 0 c : Rat) - 1) ^ 2)).sum = 1
        from inner_var_AA0,
      show ((List.range' 0 1).map (fun c => ((toL imgAA 1 c : Rat) - 1) ^ 2)).sum = 1
        from inner_var_AA1]
    norm_num]
  norm_num

theorem mask_imgAA_0 : maskOf (toL imgAA) 1 2 0 0 = true := by
  unfold maskOf
  rw [npMean_imgAA, npVar_imgAA, show toL imgAA 0 0 = 2 from rfl]
  simp only [npThresholdLt, Bool.and_eq_true, decide_eq_true_eq]
  norm_num

theorem mask_imgAA_1 : maskOf (toL imgAA) 1 2 1 0 = false := by
  unfold maskOf
  rw [npMean_imgAA, npVar_imgAA, show toL imgAA 1 0 = 0 from rfl]
  simp only [npThresholdLt, Bool.and_eq_false_iff, decide_eq_false_iff_not]
  left
  norm_num

theorem colSum_imgAA : colSumAt (maskOf (toL imgAA) 1 2) 2 0 = 1 := by
  unfold colSumAt
  rw [show List.range 2 = [0, 1] from rfl]
  rw [List.countP_cons_of_pos _ _ (by simpa using mask_imgAA_0),
    List.countP_cons_of_neg _ _ (by simpa using mask_imgAA_1)]
  rfl

/-- Claim C4 amended, witness: the first run of img7 (columns 100..499,
closed by the inactive column 500) is emitted, and the all-columns-active
buffer imgAA yields zero regions. -/
theorem C4_closed_runs_emitted_witness :
    (90, 190, 510, 809) ∈ detect_film_frames img7 ∧ detect_film_frames imgAA = [] := by
  constructor
  · exact C4_closed_runs_emitted.1 img7 100 500 (90, 190, 510, 809)
      (by decide)
      (fun j h1 h2 => by
        show ((1000 : Nat) : Rat) / 10
          < ((colSumAt (maskOf (toL img7) 2000 1000) 1000 j : Nat) : Rat)
        rw [colSum_img7_active j (Or.inl ⟨h1, h2⟩)]
        norm_num)
      (by
        show ¬ (((1000 : Nat) : Rat) / 10
          < ((colSumAt (maskOf (toL img7) 2000 1000) 1000 500 : Nat) : Rat))
        rw [colSum_img7_inactive 500 (Or.inr (Or.inl (by norm_num)))]
        norm_num)
      (Or.inr (by
        show ¬ (((1000 : Nat) : Rat) / 10
          < ((colSumAt (maskOf (toL img7) 2000 1000) 1000 (100 - 1) : Nat) : Rat))
        rw [show (100 - 1 : Nat) = 99 from rfl,
          colSum_img7_inactive 99 (Or.inl (by norm_num))]
        norm_num))
      emit_img7_1
  · exact C4_closed_runs_emitted.2 imgAA (fun j hj => by
      have hj1 : j = 0 := by
        have h2 := hj
        simp only [imgAA] at h2
        omega
      subst hj1
      show ((2 : Nat) : Rat) / 10 < ((colSumAt (maskOf (toL imgAA) 1 2) 2 0 : Nat) : Rat)
      rw [colSum_imgAA]
      norm_num)
